import Mathlib

/-!
# Galaxy: a shallow embedding of `main.js`

The script builds two point clouds (a spiral galaxy and a surrounding star
field), attaches them to a scene, orbits a camera and lets a parameter panel
regenerate the galaxy.

Conventions of the embedding

* JavaScript numbers are elements of an ordered field `α` with a floor
  function, so arithmetic is exact (no rounding, no `NaN`, no infinities).
  A division by zero, which JavaScript answers with `NaN` or an infinity,
  takes the value Lean gives it; the values of the model are the values of
  the script wherever no divisor is zero.
* The functions of the `Math` object that are not field operations
  (`Math.pow`, `Math.cos`, `Math.sin`, `Math.PI`) are the fields of a
  `JSMath α`; `JSMath.real` is their reading over the real numbers.
* `Math.random()` reads the next element of a stream `draws : ℕ → α`; the
  number of draws made so far is part of the state.
* A `Float32Array` is a `List α` of fixed length; a write outside its bounds
  is dropped, as for a typed array.  Its allocation throws a `RangeError` for a
  negative length and for a length above `maxLength`, the largest length the
  engine allocates, which is a parameter of the generators (and never counts
  for more than `2^53 - 1`, the largest length the language accepts).
-/

namespace Galaxy

/-! ## Numbers -/

/-- The functions of the JavaScript `Math` object used by the script that are
not field operations. -/
structure JSMath (α : Type) where
  /-- Reading of `Math.pow`. -/
  pow : α → α → α
  /-- Reading of `Math.cos`. -/
  cos : α → α
  /-- Reading of `Math.sin`. -/
  sin : α → α
  /-- Reading of `Math.PI`. -/
  PI : α

/-- The `Math` functions over the real numbers.  `Real.rpow` agrees with
`Math.pow` on a non-negative base with a non-negative exponent, which includes
`Math.pow(0, 0) = 1` and `Math.pow(0, y) = 0` for `y > 0`. -/
noncomputable def JSMath.real : JSMath ℝ where
  pow := Real.rpow
  cos := Real.cos
  sin := Real.sin
  PI := Real.pi

section Model

variable {α : Type} [LinearOrderedField α] [FloorRing α]

/-- Truncation towards zero (`ToIntegerOrInfinity` on a finite number). -/
def trunc (x : α) : ℤ :=
  if 0 ≤ x then ⌊x⌋ else ⌈x⌉

/-- The JavaScript remainder `n % d`: `n - d * trunc (n / d)`, with the sign of
the dividend. -/
def jsRem (n d : α) : α :=
  n - d * (trunc (n / d) : α)

/-- The function `Math.round`: the nearest integer, ties towards `+∞`. -/
def mathRound (x : α) : ℤ :=
  ⌊x + 0.5⌋

/-- Errors a call can throw. -/
inductive JSError where
  /-- `RangeError: Invalid typed array length`. -/
  | rangeError
  deriving DecidableEq, Repr

/-- The largest length `ToIndex` accepts: `2^53 - 1`. -/
def toIndexMax : ℕ :=
  2 ^ 53 - 1

/-- The largest length of a typed array that can be allocated: the largest
length `maxLength` the engine allocates, which is a parameter of the model, and
never more than the bound of `ToIndex`. -/
def allocLimit (maxLength : ℕ) : ℕ :=
  min maxLength toIndexMax

/-- The lengths with which `new Float32Array(length)` completes: those whose
truncation is not negative and not above the limit. -/
def Allocates (maxLength : ℕ) (length : α) : Prop :=
  0 ≤ trunc length ∧ trunc length ≤ (allocLimit maxLength : ℤ)

/-- The constructor `new Float32Array(length)`: the length goes through
`ToIndex`, which throws a `RangeError` when the truncated length is negative or
above `2^53 - 1`; the allocation throws a `RangeError` when the length is above
what the engine allocates; otherwise the array has that many zeros. -/
def newFloat32Array (maxLength : ℕ) (length : α) : Except JSError (List α) :=
  if trunc length < 0 ∨ (allocLimit maxLength : ℤ) < trunc length then .error .rangeError
  else .ok (List.replicate (trunc length).toNat 0)

/-- The function `Math.random()`: the draw at position `k` of the stream, and the position
of the next one. -/
def random (draws : ℕ → α) (k : ℕ) : α × ℕ :=
  (draws k, k + 1)

/-! ## Colours -/

/-- A `THREE.Color`: red, green and blue components. -/
structure Color (α : Type) where
  r : α
  g : α
  b : α

/-- The method `THREE.Color.lerp`: `this.r += (color.r - this.r) * alpha`, and likewise
for `g` and `b`. -/
def Color.lerp (c color : Color α) (alpha : α) : Color α :=
  { r := c.r + (color.r - c.r) * alpha
    g := c.g + (color.g - c.g) * alpha
    b := c.b + (color.b - c.b) * alpha }

/-- The colour of a hexadecimal triplet, each component a fraction of 255
(the conversion between colour spaces that the library may apply is not
modelled). -/
def Color.ofHex (hex : ℕ) : Color α :=
  { r := ((hex / 65536 % 256 : ℕ) : α) / 255
    g := ((hex / 256 % 256 : ℕ) : α) / 255
    b := ((hex % 256 : ℕ) : α) / 255 }

/-! ## Parameters -/

/-- The `parameters` object of the galaxy (lines 12-22).  The two colours are
held as the `THREE.Color` that `generateGalaxy` builds from the colour
string. -/
structure Parameters (α : Type) where
  count : α
  size : α
  radius : α
  branches : α
  spin : α
  randomness : α
  randomnessPower : α
  insideColor : Color α
  outsideColor : Color α

/-- The initial value of `parameters` (lines 12-22). -/
def parameters : Parameters α where
  count := 100000
  size := 0.01
  radius := 1
  branches := 5
  spin := 4
  randomness := 3
  randomnessPower := 5
  insideColor := Color.ofHex 0xff6030
  outsideColor := Color.ofHex 0x0949f0

/-- The `starFieldParameters` object (lines 76-81). -/
structure StarFieldParameters (α : Type) where
  count : α
  size : α
  range : α
  color : Color α

/-- The initial value of `starFieldParameters` (lines 76-81). -/
def starFieldParameters : StarFieldParameters α where
  count := 500
  size := 0.005
  range := 10
  color := Color.ofHex 0xffffff

/-! ## Scene objects -/

/-- The options of a `THREE.PointsMaterial` that the script sets. -/
structure PointsMaterial (α : Type) where
  id : ℕ
  size : α
  sizeAttenuation : Bool
  depthWrite : Bool
  additiveBlending : Bool
  vertexColors : Bool
  color : Option (Color α)

/-- A `THREE.BufferGeometry` with its `position` and `color` attributes (item
size 3), absent until `setAttribute` is called. -/
structure BufferGeometry (α : Type) where
  id : ℕ
  position : Option (List α)
  color : Option (List α)

/-- The generator that built a point cloud: a label of the model. -/
inductive Generator where
  | galaxy
  | starField
  deriving DecidableEq, Repr

/-- A `THREE.Points`: a geometry and a material. -/
structure Points (α : Type) where
  id : ℕ
  builtBy : Generator
  geometry : BufferGeometry α
  material : PointsMaterial α

/-- The children of the scene. -/
inductive Object3D (α : Type) where
  | points (p : Points α)
  | camera (id : ℕ)

/-- The identity of a scene object. -/
def Object3D.id : Object3D α → ℕ
  | .points p => p.id
  | .camera id => id

/-- Whether a scene object is a point cloud built by `g`. -/
def Object3D.isCloudOf (g : Generator) : Object3D α → Bool
  | .points p => decide (p.builtBy = g)
  | .camera _ => false

/-- The module-level state of the script: the children of `scene`, the
variables of lines 24 and 83, the counter that names new objects, the number
of `Math.random()` draws made so far, and the identities of the geometries and
materials on which `dispose()` was called. -/
structure World (α : Type) where
  scene : List (Object3D α)
  material : Option (PointsMaterial α)
  geometry : Option (BufferGeometry α)
  points : Option (Points α)
  starFieldMaterial : Option (PointsMaterial α)
  starFieldGeometry : Option (BufferGeometry α)
  starFieldPoints : Option (Points α)
  nextId : ℕ
  rng : ℕ
  disposed : List ℕ

/-- The state before line 27: an empty scene and undefined variables. -/
def World.initial : World α where
  scene := []
  material := none
  geometry := none
  points := none
  starFieldMaterial := none
  starFieldGeometry := none
  starFieldPoints := none
  nextId := 0
  rng := 0
  disposed := []

/-- The method `scene.remove(object)`: the first child that is `object` (same identity)
is spliced out. -/
def sceneRemove (scene : List (Object3D α)) (id : ℕ) : List (Object3D α) :=
  scene.eraseP (fun o => o.id == id)

/-- The method `scene.add(object)` for a newly created object (it has no parent): it is
pushed onto the children. -/
def sceneAdd (scene : List (Object3D α)) (o : Object3D α) : List (Object3D α) :=
  scene ++ [o]

/-- The loop `for (let i = 0; i < count; i++) body`: the body runs for `i = 0, 1, ...`
as long as `i < count`, that is for the first `⌈count⌉₊` naturals. -/
def forLoop {σ : Type} (count : α) (body : σ → ℕ → σ) (init : σ) : σ :=
  (List.range ⌈count⌉₊).foldl body init

/-! ## The galaxy generator (lines 27-72) -/

/-- The function `randomSign` (line 54). -/
def randomSign (draws : ℕ → α) (k : ℕ) : α × ℕ :=
  let u := random draws k
  (if u.1 > 0.5 then 1 else -1, u.2)

/-- The function `randomCoord` (line 55). -/
def randomCoord (M : JSMath α) (parameters : Parameters α) (draws : ℕ → α) (k : ℕ) :
    α × ℕ :=
  let u := random draws k
  let s := randomSign draws u.2
  (M.pow u.1 parameters.randomnessPower * s.1, s.2)

/-- The value of `branchAngle` for particle `i` (line 52). -/
def branchAngle (M : JSMath α) (parameters : Parameters α) (i : ℕ) : α :=
  (jsRem (i : α) parameters.branches / parameters.branches) * M.PI * 2

/-- The values computed for one particle by the body of the loop
(lines 49-64). -/
structure Particle (α : Type) where
  radius : α
  spinAngle : α
  branchAngle : α
  x : α
  y : α
  z : α
  mixFactor : α
  mixedColor : Color α
  rng : ℕ

/-- The body of the loop of `generateGalaxy` for particle `i`, the draws being
read from position `k` on (lines 50-61). -/
def galaxyParticle (M : JSMath α) (parameters : Parameters α) (draws : ℕ → α)
    (i k : ℕ) : Particle α :=
  let u1 := random draws k
  let u2 := random draws u1.2
  let radius := M.pow (u1.1 * parameters.randomness) (u2.1 * parameters.radius)
  let spinAngle := radius * parameters.spin
  let branchAngle := branchAngle M parameters i
  let cx := randomCoord M parameters draws u2.2
  let x := M.cos (branchAngle + spinAngle) * radius + cx.1
  let cy := randomCoord M parameters draws cx.2
  let y := cy.1
  let cz := randomCoord M parameters draws cy.2
  let z := M.sin (branchAngle + spinAngle) * radius + cz.1
  let u3 := random draws cz.2
  let mixFactor := u3.1 * radius / parameters.radius
  { radius := radius
    spinAngle := spinAngle
    branchAngle := branchAngle
    x := x
    y := y
    z := z
    mixFactor := mixFactor
    mixedColor := parameters.insideColor.lerp parameters.outsideColor mixFactor
    rng := u3.2 }

/-- The variables the loop of `generateGalaxy` updates. -/
structure GalaxyBuffers (α : Type) where
  positions : List α
  colors : List α
  rng : ℕ

/-- One iteration of the loop of `generateGalaxy` (lines 48-65): the values of
particle `i` are written at `i3`, `i3 + 1` and `i3 + 2`. -/
def galaxyBody (M : JSMath α) (parameters : Parameters α) (draws : ℕ → α)
    (b : GalaxyBuffers α) (i : ℕ) : GalaxyBuffers α :=
  let i3 := i * 3
  let p := galaxyParticle M parameters draws i b.rng
  { positions := ((b.positions.set i3 p.x).set (i3 + 1) p.y).set (i3 + 2) p.z
    colors := ((b.colors.set i3 p.mixedColor.r).set (i3 + 1) p.mixedColor.g).set (i3 + 2)
      p.mixedColor.b
    rng := p.rng }

/-- Lines 28-32 and 87-91: when the cloud variable is set, `dispose()` is
called on the current geometry and material and the cloud is removed from the
scene. -/
def disposePrevious (scene : List (Object3D α)) (disposed : List ℕ)
    (points : Option (Points α)) (geometry : Option (BufferGeometry α))
    (material : Option (PointsMaterial α)) : List (Object3D α) × List ℕ :=
  match points with
  | some p =>
    (sceneRemove scene p.id,
      disposed ++ (geometry.map (·.id)).toList ++ (material.map (·.id)).toList)
  | none => (scene, disposed)

/-- The function `generateGalaxy` (lines 27-72).  The result is the outcome of the call
(normal completion or the error thrown) and the state it leaves. -/
def generateGalaxy (M : JSMath α) (maxLength : ℕ) (parameters : Parameters α)
    (draws : ℕ → α) (w : World α) : Except JSError Unit × World α :=
  let d := disposePrevious w.scene w.disposed w.points w.geometry w.material
  let material : PointsMaterial α :=
    { id := w.nextId
      size := parameters.size
      sizeAttenuation := true
      depthWrite := false
      additiveBlending := true
      vertexColors := true
      color := none }
  let geometry : BufferGeometry α := { id := w.nextId + 1, position := none, color := none }
  let w1 : World α :=
    { w with
      scene := d.1
      disposed := d.2
      material := some material
      geometry := some geometry
      nextId := w.nextId + 2 }
  match newFloat32Array maxLength (parameters.count * 3) with
  | .error e => (.error e, w1)
  | .ok positions =>
    match newFloat32Array maxLength (parameters.count * 3) with
    | .error e => (.error e, w1)
    | .ok colors =>
      let b := forLoop parameters.count (galaxyBody M parameters draws)
        { positions := positions, colors := colors, rng := w.rng }
      let geometry := { geometry with position := some b.positions, color := some b.colors }
      let points : Points α :=
        { id := w1.nextId, builtBy := .galaxy, geometry := geometry, material := material }
      (.ok (),
        { w1 with
          geometry := some geometry
          points := some points
          scene := sceneAdd w1.scene (.points points)
          nextId := w1.nextId + 1
          rng := b.rng })

/-! ## The star-field generator (lines 86-112) -/

/-- The variables the loop of `generateStarField` updates. -/
structure StarBuffers (α : Type) where
  positions : List α
  rng : ℕ

/-- A coordinate of a star (lines 103-105): `(Math.random() - 0.5) * range * 2`. -/
def starCoord (starFieldParameters : StarFieldParameters α) (draws : ℕ → α) (k : ℕ) :
    α × ℕ :=
  let u := random draws k
  ((u.1 - 0.5) * starFieldParameters.range * 2, u.2)

/-- One iteration of the loop of `generateStarField` (lines 101-106). -/
def starBody (starFieldParameters : StarFieldParameters α) (draws : ℕ → α)
    (b : StarBuffers α) (i : ℕ) : StarBuffers α :=
  let i3 := i * 3
  let x := starCoord starFieldParameters draws b.rng
  let y := starCoord starFieldParameters draws x.2
  let z := starCoord starFieldParameters draws y.2
  { positions := ((b.positions.set i3 x.1).set (i3 + 1) y.1).set (i3 + 2) z.1
    rng := z.2 }

/-- The function `generateStarField` (lines 86-112). -/
def generateStarField (maxLength : ℕ) (starFieldParameters : StarFieldParameters α)
    (draws : ℕ → α) (w : World α) : Except JSError Unit × World α :=
  let d := disposePrevious w.scene w.disposed w.starFieldPoints w.starFieldGeometry
    w.starFieldMaterial
  let material : PointsMaterial α :=
    { id := w.nextId
      size := starFieldParameters.size
      sizeAttenuation := true
      depthWrite := true
      additiveBlending := false
      vertexColors := false
      color := some starFieldParameters.color }
  let geometry : BufferGeometry α := { id := w.nextId + 1, position := none, color := none }
  let w1 : World α :=
    { w with
      scene := d.1
      disposed := d.2
      starFieldMaterial := some material
      starFieldGeometry := some geometry
      nextId := w.nextId + 2 }
  match newFloat32Array maxLength (starFieldParameters.count * 3) with
  | .error e => (.error e, w1)
  | .ok positions =>
    let b := forLoop starFieldParameters.count (starBody starFieldParameters draws)
      { positions := positions, rng := w.rng }
    let geometry := { geometry with position := some b.positions }
    let points : Points α :=
      { id := w1.nextId, builtBy := .starField, geometry := geometry, material := material }
    (.ok (),
      { w1 with
        starFieldGeometry := some geometry
        starFieldPoints := some points
        scene := sceneAdd w1.scene (.points points)
        nextId := w1.nextId + 1
        rng := b.rng })

/-! ## The script as a sequence of generator calls -/

/-- A call of one of the two generators, with the parameters it reads. -/
inductive Call (α : Type) where
  | galaxy (parameters : Parameters α)
  | starField (starFieldParameters : StarFieldParameters α)

/-- The `count` a call reads. -/
def Call.count : Call α → α
  | .galaxy parameters => parameters.count
  | .starField starFieldParameters => starFieldParameters.count

/-- The state a call leaves, whether it completes or throws. -/
def Call.exec (M : JSMath α) (maxLength : ℕ) (draws : ℕ → α) (c : Call α) (w : World α) :
    World α :=
  match c with
  | .galaxy parameters => (generateGalaxy M maxLength parameters draws w).2
  | .starField starFieldParameters =>
    (generateStarField maxLength starFieldParameters draws w).2

/-- The state after a sequence of calls. -/
def run (M : JSMath α) (maxLength : ℕ) (draws : ℕ → α) (cs : List (Call α)) (w : World α) :
    World α :=
  cs.foldl (fun w c => c.exec M maxLength draws w) w

/-- Lines 129-131: the camera is created and added to the scene. -/
def addCamera (w : World α) : World α :=
  { w with scene := sceneAdd w.scene (.camera w.nextId), nextId := w.nextId + 1 }

/-- The state once the script has run to its end: the calls of lines 74 and
114 with the initial parameters, and the camera of line 131. -/
def boot (M : JSMath α) (maxLength : ℕ) (draws : ℕ → α) : World α :=
  addCamera
    (generateStarField maxLength starFieldParameters draws
      (generateGalaxy M maxLength parameters draws World.initial).2).2

/-! ## The camera and the animation frame (lines 129-130 and 144-152) -/

/-- A `THREE.Vector3`. -/
structure Vector3 (α : Type) where
  x : α
  y : α
  z : α

/-- The position of the camera (line 130). -/
def cameraPosition : Vector3 α :=
  { x := 3, y := 3, z := 3 }

/-- The effect of `tick` on the position of the camera at `elapsedTime`
(lines 145-149): `controls.update()`, the orbit controller of the library, acts
first, then `x` and `z` are assigned; `lookAt` and `render` leave the position
as it is. -/
def tick (M : JSMath α) (controlsUpdate : Vector3 α → Vector3 α) (elapsedTime : α)
    (position : Vector3 α) : Vector3 α :=
  let position := controlsUpdate position
  let position := { position with x := M.cos (elapsedTime * 0.05) }
  { position with z := M.sin (elapsedTime * 0.05) }

/-! ## The parameter panel (lines 156-164) -/

/-- The numeric properties of `parameters` that have a control. -/
inductive Property where
  | count
  | radius
  | branches
  | spin
  | randomness
  | randomnessPower
  deriving DecidableEq, Repr

/-- A numeric control `gui.add(parameters, property, min, max, step)`. -/
structure NumberController (α : Type) where
  property : Property
  min : α
  max : α
  step : α

/-- The numeric controls of the panel (lines 157-162). -/
def gui : List (NumberController α) :=
  [ { property := .count, min := 10000, max := 200000, step := 1000 },
    { property := .radius, min := 0.1, max := 5, step := 0.1 },
    { property := .branches, min := 1, max := 20, step := 1 },
    { property := .spin, min := -5, max := 10, step := 0.5 },
    { property := .randomness, min := 1, max := 10, step := 0.1 },
    { property := .randomnessPower, min := 1, max := 10, step := 0.1 } ]

/-- The value of a control snapped to its step, as the panel library does:
`Math.round(value / step) * step`. -/
def NumberController.snap (c : NumberController α) (value : α) : α :=
  (mathRound (value / c.step) : α) * c.step

/-- The value of a control clamped to its range, as the panel library does. -/
def NumberController.clamp (c : NumberController α) (value : α) : α :=
  let value := if value < c.min then c.min else value
  if value > c.max then c.max else value

/-- Assignment to a numeric property of `parameters`. -/
def Parameters.set (p : Parameters α) (property : Property) (value : α) : Parameters α :=
  match property with
  | .count => { p with count := value }
  | .radius => { p with radius := value }
  | .branches => { p with branches := value }
  | .spin => { p with spin := value }
  | .randomness => { p with randomness := value }
  | .randomnessPower => { p with randomnessPower := value }

/-- A change made through the panel: a raw value given to the control of a
numeric property, or a colour picked. -/
inductive PanelEvent (α : Type) where
  | number (property : Property) (value : α)
  | insideColor (c : Color α)
  | outsideColor (c : Color α)

/-- The parameters after a change made through the panel: a numeric control
stores its raw value snapped, then clamped. -/
def PanelEvent.apply (e : PanelEvent α) (p : Parameters α) : Parameters α :=
  match e with
  | .number property value =>
    match gui.find? (fun c => decide (c.property = property)) with
    | some c => p.set property (c.clamp (c.snap value))
    | none => p
  | .insideColor c => { p with insideColor := c }
  | .outsideColor c => { p with outsideColor := c }

/-- The parameters after a sequence of changes made through the panel. -/
def panelRun (es : List (PanelEvent α)) (p : Parameters α) : Parameters α :=
  es.foldl (fun p e => e.apply p) p

/-! ## Reading the state -/

/-- The `position` attribute of the galaxy cloud the variable `points` holds. -/
def World.galaxyPositions (w : World α) : Option (List α) :=
  w.points.bind (fun p => p.geometry.position)

/-- The `color` attribute of the galaxy cloud the variable `points` holds. -/
def World.galaxyColors (w : World α) : Option (List α) :=
  w.points.bind (fun p => p.geometry.color)

/-- The `position` attribute of the cloud the variable `starFieldPoints`
holds. -/
def World.starPositions (w : World α) : Option (List α) :=
  w.starFieldPoints.bind (fun p => p.geometry.position)

/-- The point clouds of the scene that generator `g` built. -/
def World.clouds (w : World α) (g : Generator) : List (Object3D α) :=
  w.scene.filter (Object3D.isCloudOf g)

/-- What the panel keeps true of `parameters`: every numeric property is in the
range of its control, and `branches` is a whole number. -/
structure Admitted (p : Parameters α) : Prop where
  count : 10000 ≤ p.count ∧ p.count ≤ 200000
  radius : 0.1 ≤ p.radius ∧ p.radius ≤ 5
  branches : 1 ≤ p.branches ∧ p.branches ≤ 20
  branchesInt : ∃ n : ℤ, p.branches = (n : α)
  spin : -5 ≤ p.spin ∧ p.spin ≤ 10
  randomness : 1 ≤ p.randomness ∧ p.randomness ≤ 10
  randomnessPower : 1 ≤ p.randomnessPower ∧ p.randomnessPower ≤ 10

/-- The buffers the loop of `generateGalaxy` leaves when it starts from
zero-filled arrays of `length` elements with `k` draws already made. -/
def galaxyBuffers (M : JSMath α) (parameters : Parameters α) (draws : ℕ → α)
    (length k : ℕ) : GalaxyBuffers α :=
  forLoop parameters.count (galaxyBody M parameters draws)
    { positions := List.replicate length 0, colors := List.replicate length 0, rng := k }

/-- The buffer the loop of `generateStarField` leaves when it starts from a
zero-filled array of `length` elements with `k` draws already made. -/
def starBuffers (starFieldParameters : StarFieldParameters α) (draws : ℕ → α)
    (length k : ℕ) : StarBuffers α :=
  forLoop starFieldParameters.count (starBody starFieldParameters draws)
    { positions := List.replicate length 0, rng := k }

/-! ## Two parameter sets of interest -/

/-- The parameters of the end-to-end scenario: three particles, three
branches, radius 1, no spin, randomness 0 and randomness power 1. -/
def scenario : Parameters α :=
  { (parameters : Parameters α) with
    count := 3
    branches := 3
    radius := 1
    spin := 0
    randomness := 0
    randomnessPower := 1 }

/-- The initial parameters with `radius` set to 2 (`randomness` is 3). -/
def wideRadius : Parameters α :=
  { (parameters : Parameters α) with radius := 2 }

/-- A stream of draws in `[0, 1)`: 0.5 for the exponent of the radius of each
particle, 0.9 for every other draw. -/
def wideDraws (k : ℕ) : α :=
  if k % 9 = 1 then 0.5 else 0.9

/-! ## One cloud for each generator -/

/-- The generator a call runs. -/
def Call.generator : Call α → Generator
  | .galaxy _ => .galaxy
  | .starField _ => .starField

/-- The variable that holds the cloud of generator `g`: `points` for the
galaxy, `starFieldPoints` for the star field. -/
def World.cloudOf (w : World α) (g : Generator) : Option (Points α) :=
  match g with
  | .galaxy => w.points
  | .starField => w.starFieldPoints

/-- The cloud variable of generator `g` agrees with the scene: when it is set,
the scene holds that cloud and no other cloud of `g`; when it is not, the scene
holds no cloud of `g`. -/
def Slot (clouds : List (Object3D α)) (g : Generator) (slot : Option (Points α)) : Prop :=
  match slot with
  | some p => p.builtBy = g ∧ clouds = [.points p]
  | none => clouds = []

/-- The invariant of the scene: its children have distinct identities, all
below the counter of new objects, and both cloud variables agree with it. -/
def World.Inv (w : World α) : Prop :=
  (w.scene.map Object3D.id).Nodup ∧
    (∀ o ∈ w.scene, o.id < w.nextId) ∧
    ∀ g, Slot (w.clouds g) g (w.cloudOf g)

end Model

/-! # Properties -/

section Properties

variable {α : Type} [LinearOrderedField α] [FloorRing α]

set_option linter.unusedSectionVars false

/-! ## Numbers -/

theorem trunc_of_nonneg {x : α} (hx : 0 ≤ x) : trunc x = ⌊x⌋ := by
  simp [trunc, hx]

theorem trunc_natCast (n : ℕ) : trunc (n : α) = n := by
  rw [trunc_of_nonneg (Nat.cast_nonneg n), Int.floor_natCast]

theorem trunc_natCast_div (i b : ℕ) : trunc ((i : α) / (b : α)) = ((i / b : ℕ) : ℤ) := by
  rw [trunc_of_nonneg (div_nonneg (Nat.cast_nonneg i) (Nat.cast_nonneg b))]
  rw [← Int.natCast_floor_eq_floor (div_nonneg (Nat.cast_nonneg i) (Nat.cast_nonneg b))]
  rw [Nat.floor_div_eq_div]

/-- On naturals the JavaScript remainder is the remainder of the division. -/
theorem jsRem_natCast (i b : ℕ) : jsRem (i : α) (b : α) = ((i % b : ℕ) : α) := by
  unfold jsRem
  rw [trunc_natCast_div]
  have h : (i : α) = ((i % b + b * (i / b) : ℕ) : α) := by rw [Nat.mod_add_div]
  rw [Int.cast_natCast]
  nth_rewrite 1 [h]
  push_cast
  ring

/-! ## Colours -/

/-- C6: the colour `generateGalaxy` gives a particle is the componentwise
linear interpolation of the inside and outside colours at the particle's
factor, and that interpolation returns the inside colour exactly at factor 0
and the outside colour exactly at factor 1. -/
theorem lerp_endpoints (M : JSMath α) (parameters : Parameters α) (draws : ℕ → α)
    (i k : ℕ) :
    (galaxyParticle M parameters draws i k).mixedColor =
        parameters.insideColor.lerp parameters.outsideColor
          (galaxyParticle M parameters draws i k).mixFactor ∧
      parameters.insideColor.lerp parameters.outsideColor 0 = parameters.insideColor ∧
      parameters.insideColor.lerp parameters.outsideColor 1 = parameters.outsideColor := by
  refine ⟨rfl, ?_, ?_⟩
  · simp [Color.lerp]
  · simp [Color.lerp]

/-! ## Branch angles -/

/-- C3: with `branches` a positive integer `b`, the branch angle computed for
particle `i` is `((i mod b) / b) * 2π`; it is the one computed for particle
`i + b`, and two particles whose indices are congruent modulo `b` get the same
branch angle, whatever the draws and the other parameters of the two runs. -/
theorem branchAngle_congr_mod (M : JSMath α) (p q : Parameters α) (b : ℕ) (hb : 0 < b)
    (hp : p.branches = (b : α)) (hq : q.branches = (b : α)) (draws draws' : ℕ → α)
    (i j k k' : ℕ) :
    (galaxyParticle M p draws i k).branchAngle = ((i % b : ℕ) : α) / (b : α) * M.PI * 2 ∧
      (galaxyParticle M p draws (i + b) k).branchAngle =
        (galaxyParticle M p draws i k).branchAngle ∧
      (i % b = j % b →
        (galaxyParticle M p draws i k).branchAngle =
          (galaxyParticle M q draws' j k').branchAngle) := by
  have key : ∀ (r : Parameters α) (d : ℕ → α) (m n : ℕ), r.branches = (b : α) →
      (galaxyParticle M r d m n).branchAngle = ((m % b : ℕ) : α) / (b : α) * M.PI * 2 := by
    intro r d m n hr
    simp only [galaxyParticle, branchAngle, hr, jsRem_natCast]
  have _ := hb
  refine ⟨key p draws i k hp, ?_, ?_⟩
  · rw [key p draws (i + b) k hp, key p draws i k hp, Nat.add_mod_right]
  · intro h
    rw [key p draws i k hp, key q draws' j k' hq, h]

/-- Witness of `branchAngle_congr_mod`: the initial parameters, which have five
branches, and particles 2 and 7. -/
theorem branchAngle_congr_mod_witness :
    (galaxyParticle JSMath.real parameters (fun _ => 0) 2 0).branchAngle =
        ((2 % 5 : ℕ) : ℝ) / ((5 : ℕ) : ℝ) * JSMath.real.PI * 2 ∧
      (galaxyParticle JSMath.real parameters (fun _ => 0) (2 + 5) 0).branchAngle =
        (galaxyParticle JSMath.real parameters (fun _ => 0) 2 0).branchAngle ∧
      (2 % 5 = 7 % 5 →
        (galaxyParticle JSMath.real parameters (fun _ => 0) 2 0).branchAngle =
          (galaxyParticle JSMath.real parameters (fun _ => 1 / 2) 7 3).branchAngle) :=
  branchAngle_congr_mod JSMath.real parameters parameters 5 (by decide)
    (by simp [parameters]) (by simp [parameters]) (fun _ => 0) (fun _ => 1 / 2) 2 7 0 3

/-! ## The camera orbit -/

/-- C8 (as the script has it): after `tick` at elapsed time `t` the camera is
at horizontal position `(cos (0.05 t), sin (0.05 t))`, the point at angle
`0.05 t` of the circle of radius 1 around the origin; its height is the one the
orbit controller left; the horizontal position does not depend on the position
the camera had before the frame. -/
theorem tick_orbit (controlsUpdate : Vector3 ℝ → Vector3 ℝ) (t : ℝ)
    (position other : Vector3 ℝ) :
    (tick JSMath.real controlsUpdate t position).x = Real.cos (t * 0.05) ∧
      (tick JSMath.real controlsUpdate t position).z = Real.sin (t * 0.05) ∧
      (tick JSMath.real controlsUpdate t position).y = (controlsUpdate position).y ∧
      (tick JSMath.real controlsUpdate t position).x ^ 2 +
        (tick JSMath.real controlsUpdate t position).z ^ 2 = 1 ∧
      (tick JSMath.real controlsUpdate t other).x =
        (tick JSMath.real controlsUpdate t position).x ∧
      (tick JSMath.real controlsUpdate t other).z =
        (tick JSMath.real controlsUpdate t position).z := by
  refine ⟨rfl, rfl, rfl, ?_, rfl, rfl⟩
  simp only [tick, JSMath.real]
  exact Real.cos_sq_add_sin_sq (t * 0.05)

/-- C8 as first stated fails on the first frame of the initial camera, the
orbit controller at rest: the camera is on the circle of radius 1, which is neither the horizontal distance
(squared: 18) nor the distance (squared: 27) of the initial camera position
`(3, 3, 3)` from the origin. -/
theorem tick_radius_not_initial_distance :
    (tick JSMath.real id 0 cameraPosition).x ^ 2 + (tick JSMath.real id 0 cameraPosition).z ^ 2
        = 1 ∧
      (tick JSMath.real id 0 cameraPosition).x ^ 2 +
          (tick JSMath.real id 0 cameraPosition).z ^ 2 ≠
        (cameraPosition : Vector3 ℝ).x ^ 2 + (cameraPosition : Vector3 ℝ).z ^ 2 ∧
      (tick JSMath.real id 0 cameraPosition).x ^ 2 +
          (tick JSMath.real id 0 cameraPosition).z ^ 2 ≠
        (cameraPosition : Vector3 ℝ).x ^ 2 + (cameraPosition : Vector3 ℝ).y ^ 2 +
          (cameraPosition : Vector3 ℝ).z ^ 2 := by
  have h : (tick JSMath.real id 0 cameraPosition).x ^ 2 +
      (tick JSMath.real id 0 cameraPosition).z ^ 2 = 1 := by
    simp only [tick, JSMath.real]
    exact Real.cos_sq_add_sin_sq _
  refine ⟨h, ?_, ?_⟩
  · rw [h]; norm_num [cameraPosition]
  · rw [h]; norm_num [cameraPosition]

/-! ## The parameter panel -/

theorem clamp_mem_range (c : NumberController α) (hc : c.min ≤ c.max) (v : α) :
    c.min ≤ c.clamp v ∧ c.clamp v ≤ c.max := by
  simp only [NumberController.clamp]
  split_ifs with h1 h2 h2
  · exact ⟨hc, le_refl _⟩
  · exact ⟨le_refl _, hc⟩
  · exact ⟨hc, le_refl _⟩
  · exact ⟨not_lt.mp h1, not_lt.mp h2⟩

theorem clamp_cases (c : NumberController α) (v : α) :
    c.clamp v = c.min ∨ c.clamp v = c.max ∨ c.clamp v = v := by
  simp only [NumberController.clamp]
  split_ifs
  · exact Or.inr (Or.inl rfl)
  · exact Or.inl rfl
  · exact Or.inr (Or.inl rfl)
  · exact Or.inr (Or.inr rfl)

theorem admitted_parameters : Admitted (parameters : Parameters α) := by
  constructor <;> try (simp only [parameters]; norm_num)
  exact ⟨5, by simp [parameters]⟩

theorem apply_number (property : Property) (value : α) (p : Parameters α) :
    ∃ c : NumberController α, c ∈ (gui : List (NumberController α)) ∧
      c.property = property ∧
      (PanelEvent.number property value).apply p = p.set property (c.clamp (c.snap value)) := by
  cases property
  · exact ⟨{ property := .count, min := 10000, max := 200000, step := 1000 }, by simp [gui],
      rfl, rfl⟩
  · exact ⟨{ property := .radius, min := 0.1, max := 5, step := 0.1 }, by simp [gui], rfl, rfl⟩
  · exact ⟨{ property := .branches, min := 1, max := 20, step := 1 }, by simp [gui], rfl, rfl⟩
  · exact ⟨{ property := .spin, min := -5, max := 10, step := 0.5 }, by simp [gui], rfl, rfl⟩
  · exact ⟨{ property := .randomness, min := 1, max := 10, step := 0.1 }, by simp [gui],
      rfl, rfl⟩
  · exact ⟨{ property := .randomnessPower, min := 1, max := 10, step := 0.1 }, by simp [gui],
      rfl, rfl⟩

/-- The range of each control of the panel, and whether it yields whole
numbers. -/
theorem gui_controls (c : NumberController α) (hc : c ∈ (gui : List (NumberController α))) :
    c.min ≤ c.max ∧
      (c.property = .count → c.min = 10000 ∧ c.max = 200000) ∧
      (c.property = .radius → c.min = 0.1 ∧ c.max = 5) ∧
      (c.property = .branches → c.min = 1 ∧ c.max = 20 ∧ c.step = 1) ∧
      (c.property = .spin → c.min = -5 ∧ c.max = 10) ∧
      (c.property = .randomness → c.min = 1 ∧ c.max = 10) ∧
      (c.property = .randomnessPower → c.min = 1 ∧ c.max = 10) := by
  simp only [gui, List.mem_cons, List.mem_singleton, List.not_mem_nil, or_false] at hc
  rcases hc with h | h | h | h | h | h <;> subst h <;>
    refine ⟨by norm_num, ?_, ?_, ?_, ?_, ?_, ?_⟩ <;> intro h <;>
    first
      | exact ⟨rfl, rfl⟩
      | exact ⟨rfl, rfl, rfl⟩
      | exact absurd h (by simp)

theorem admitted_apply (e : PanelEvent α) (p : Parameters α) (h : Admitted p) :
    Admitted (e.apply p) := by
  cases e with
  | insideColor c => exact ⟨h.count, h.radius, h.branches, h.branchesInt, h.spin, h.randomness,
      h.randomnessPower⟩
  | outsideColor c => exact ⟨h.count, h.radius, h.branches, h.branchesInt, h.spin, h.randomness,
      h.randomnessPower⟩
  | number property value =>
    obtain ⟨c, hc, hprop, happ⟩ := apply_number property value p
    obtain ⟨hle, g1, g2, g3, g4, g5, g6⟩ := gui_controls c hc
    have hr := clamp_mem_range c hle (c.snap value)
    rw [happ]
    cases property with
    | count =>
      obtain ⟨e1, e2⟩ := g1 hprop
      rw [e1, e2] at hr
      exact ⟨hr, h.radius, h.branches, h.branchesInt, h.spin, h.randomness, h.randomnessPower⟩
    | radius =>
      obtain ⟨e1, e2⟩ := g2 hprop
      rw [e1, e2] at hr
      exact ⟨h.count, hr, h.branches, h.branchesInt, h.spin, h.randomness, h.randomnessPower⟩
    | branches =>
      obtain ⟨e1, e2, e3⟩ := g3 hprop
      have hi : ∃ n : ℤ, c.clamp (c.snap value) = (n : α) := by
        rcases clamp_cases c (c.snap value) with h1 | h1 | h1
        · exact ⟨1, by rw [h1, e1]; simp⟩
        · exact ⟨20, by rw [h1, e2]; simp⟩
        · exact ⟨mathRound (value / 1), by rw [h1]; simp [NumberController.snap, e3]⟩
      rw [e1, e2] at hr
      exact ⟨h.count, h.radius, hr, hi, h.spin, h.randomness, h.randomnessPower⟩
    | spin =>
      obtain ⟨e1, e2⟩ := g4 hprop
      rw [e1, e2] at hr
      exact ⟨h.count, h.radius, h.branches, h.branchesInt, hr, h.randomness, h.randomnessPower⟩
    | randomness =>
      obtain ⟨e1, e2⟩ := g5 hprop
      rw [e1, e2] at hr
      exact ⟨h.count, h.radius, h.branches, h.branchesInt, h.spin, hr, h.randomnessPower⟩
    | randomnessPower =>
      obtain ⟨e1, e2⟩ := g6 hprop
      rw [e1, e2] at hr
      exact ⟨h.count, h.radius, h.branches, h.branchesInt, h.spin, h.randomness, hr⟩

theorem admitted_panelRun (es : List (PanelEvent α)) (p : Parameters α) (h : Admitted p) :
    Admitted (panelRun es p) := by
  induction es generalizing p with
  | nil => exact h
  | cons e es ih => exact ih (e.apply p) (admitted_apply e p h)

/-- C7: whatever changes are made through the panel, starting from the initial
parameters, `branches` is a whole number from 1 to 20 and `radius` lies between
0.1 and 5, so neither divisor of `generateGalaxy` (`branches` in the branch
angle, `radius` in the colour factor) is zero. -/
theorem panel_guards_divisors (es : List (PanelEvent α)) :
    (∃ n : ℕ, 1 ≤ n ∧ n ≤ 20 ∧ (panelRun es parameters).branches = (n : α)) ∧
      (panelRun es parameters).branches ≠ 0 ∧
      0.1 ≤ (panelRun es parameters).radius ∧
      (panelRun es parameters).radius ≤ 5 ∧
      (panelRun es parameters).radius ≠ 0 := by
  have h := admitted_panelRun es (parameters : Parameters α) admitted_parameters
  obtain ⟨n, hn⟩ := h.branchesInt
  have hb := h.branches
  have hr := h.radius
  refine ⟨⟨n.toNat, ?_, ?_, ?_⟩, ?_, hr.1, hr.2, ?_⟩
  · rw [hn] at hb
    have h1 : (1 : ℤ) ≤ n := by exact_mod_cast hb.1
    omega
  · rw [hn] at hb
    have h2 : n ≤ (20 : ℤ) := by exact_mod_cast hb.2
    omega
  · rw [hn] at hb
    have h1 : (1 : ℤ) ≤ n := by exact_mod_cast hb.1
    rw [hn]
    have h3 : ((n.toNat : ℤ) : α) = (n : α) := by rw [Int.toNat_of_nonneg (by omega)]
    rw [← h3, Int.cast_natCast]
  · have h0 : (0 : α) < 1 := zero_lt_one
    exact ne_of_gt (lt_of_lt_of_le h0 hb.1)
  · have h0 : (0 : α) < 0.1 := by norm_num
    exact ne_of_gt (lt_of_lt_of_le h0 hr.1)

/-! ## The loops -/

theorem galaxyParticle_rng (M : JSMath α) (parameters : Parameters α) (draws : ℕ → α)
    (i k : ℕ) : (galaxyParticle M parameters draws i k).rng = k + 9 :=
  rfl

/-- Three consecutive writes into a buffer, read back. -/
theorem getElem?_set3 (l : List α) (m : ℕ) (a b c : α) (j : ℕ) :
    (((l.set m a).set (m + 1) b).set (m + 2) c)[j]? =
      if j = m then (if m < l.length then some a else none)
      else if j = m + 1 then (if m + 1 < l.length then some b else none)
      else if j = m + 2 then (if m + 2 < l.length then some c else none)
      else l[j]? := by
  simp only [List.getElem?_set, List.length_set]
  by_cases h1 : j = m
  · subst h1
    simp
  · by_cases h2 : j = m + 1
    · subst h2
      simp
    · by_cases h3 : j = m + 2
      · subst h3
        simp
      · have e1 : ¬ m = j := fun h => h1 h.symm
        have e2 : ¬ m + 1 = j := fun h => h2 h.symm
        have e3 : ¬ m + 2 = j := fun h => h3 h.symm
        simp [h1, h2, h3, e1, e2, e3]

/-- The state of the loop of `generateGalaxy` after `n` iterations: the lengths
of the buffers have not changed, nine draws were made for each particle, and
the values of every particle whose three slots are in the buffer can be read
back. -/
theorem galaxy_fold (M : JSMath α) (parameters : Parameters α) (draws : ℕ → α)
    (b0 : GalaxyBuffers α) (n : ℕ) :
    ((List.range n).foldl (galaxyBody M parameters draws) b0).positions.length
        = b0.positions.length ∧
      ((List.range n).foldl (galaxyBody M parameters draws) b0).colors.length
        = b0.colors.length ∧
      ((List.range n).foldl (galaxyBody M parameters draws) b0).rng = b0.rng + 9 * n ∧
      (∀ i, i < n → i * 3 + 2 < b0.positions.length →
        ((List.range n).foldl (galaxyBody M parameters draws) b0).positions[i * 3]? =
            some (galaxyParticle M parameters draws i (b0.rng + 9 * i)).x ∧
          ((List.range n).foldl (galaxyBody M parameters draws) b0).positions[i * 3 + 1]? =
            some (galaxyParticle M parameters draws i (b0.rng + 9 * i)).y ∧
          ((List.range n).foldl (galaxyBody M parameters draws) b0).positions[i * 3 + 2]? =
            some (galaxyParticle M parameters draws i (b0.rng + 9 * i)).z) ∧
      (∀ i, i < n → i * 3 + 2 < b0.colors.length →
        ((List.range n).foldl (galaxyBody M parameters draws) b0).colors[i * 3]? =
            some (galaxyParticle M parameters draws i (b0.rng + 9 * i)).mixedColor.r ∧
          ((List.range n).foldl (galaxyBody M parameters draws) b0).colors[i * 3 + 1]? =
            some (galaxyParticle M parameters draws i (b0.rng + 9 * i)).mixedColor.g ∧
          ((List.range n).foldl (galaxyBody M parameters draws) b0).colors[i * 3 + 2]? =
            some (galaxyParticle M parameters draws i (b0.rng + 9 * i)).mixedColor.b) := by
  induction n with
  | zero =>
    refine ⟨rfl, rfl, rfl, ?_, ?_⟩ <;> intro i hi <;> exact absurd hi (Nat.not_lt_zero i)
  | succ n ih =>
    obtain ⟨hp, hc, hr, hpos, hcol⟩ := ih
    rw [List.range_succ, List.foldl_append]
    simp only [List.foldl_cons, List.foldl_nil]
    generalize (List.range n).foldl (galaxyBody M parameters draws) b0 = b at hp hc hr hpos hcol
    refine ⟨?_, ?_, ?_, ?_, ?_⟩
    · simp only [galaxyBody, List.length_set, hp]
    · simp only [galaxyBody, List.length_set, hc]
    · simp only [galaxyBody, galaxyParticle_rng, hr]
      ring
    · intro i hi hlen
      simp only [galaxyBody, getElem?_set3, hp, hr]
      rcases Nat.lt_succ_iff_lt_or_eq.mp hi with h | h
      · obtain ⟨h0, h1, h2⟩ := hpos i h hlen
        have e0 : ¬ i * 3 = n * 3 := by omega
        have e1 : ¬ i * 3 = n * 3 + 1 := by omega
        have e2 : ¬ i * 3 = n * 3 + 2 := by omega
        have e3 : ¬ i * 3 + 1 = n * 3 := by omega
        have e4 : ¬ i * 3 + 1 = n * 3 + 1 := by omega
        have e5 : ¬ i * 3 + 1 = n * 3 + 2 := by omega
        have e6 : ¬ i * 3 + 2 = n * 3 := by omega
        have e7 : ¬ i * 3 + 2 = n * 3 + 1 := by omega
        have e8 : ¬ i * 3 + 2 = n * 3 + 2 := by omega
        simp only [e0, e1, e2, e3, e4, e5, e6, e7, e8, if_false, h0, h1, h2, and_self]
      · subst h
        have l0 : i * 3 < b0.positions.length := by omega
        have l1 : i * 3 + 1 < b0.positions.length := by omega
        have e3 : ¬ i * 3 + 1 = i * 3 := by omega
        have e6 : ¬ i * 3 + 2 = i * 3 := by omega
        have e7 : ¬ i * 3 + 2 = i * 3 + 1 := by omega
        simp only [e3, e6, e7, if_false, if_true, l0, l1, hlen, and_self]
    · intro i hi hlen
      simp only [galaxyBody, getElem?_set3, hc, hr]
      rcases Nat.lt_succ_iff_lt_or_eq.mp hi with h | h
      · obtain ⟨h0, h1, h2⟩ := hcol i h hlen
        have e0 : ¬ i * 3 = n * 3 := by omega
        have e1 : ¬ i * 3 = n * 3 + 1 := by omega
        have e2 : ¬ i * 3 = n * 3 + 2 := by omega
        have e3 : ¬ i * 3 + 1 = n * 3 := by omega
        have e4 : ¬ i * 3 + 1 = n * 3 + 1 := by omega
        have e5 : ¬ i * 3 + 1 = n * 3 + 2 := by omega
        have e6 : ¬ i * 3 + 2 = n * 3 := by omega
        have e7 : ¬ i * 3 + 2 = n * 3 + 1 := by omega
        have e8 : ¬ i * 3 + 2 = n * 3 + 2 := by omega
        simp only [e0, e1, e2, e3, e4, e5, e6, e7, e8, if_false, h0, h1, h2, and_self]
      · subst h
        have l0 : i * 3 < b0.colors.length := by omega
        have l1 : i * 3 + 1 < b0.colors.length := by omega
        have e3 : ¬ i * 3 + 1 = i * 3 := by omega
        have e6 : ¬ i * 3 + 2 = i * 3 := by omega
        have e7 : ¬ i * 3 + 2 = i * 3 + 1 := by omega
        simp only [e3, e6, e7, if_false, if_true, l0, l1, hlen, and_self]

/-- The state of the loop of `generateStarField` after `n` iterations: the
length of the buffer has not changed, three draws were made for each star, and
slot `m` of the buffer holds the coordinate computed from draw `m` of the
call. -/
theorem star_fold (sp : StarFieldParameters α) (draws : ℕ → α) (b0 : StarBuffers α)
    (n : ℕ) :
    ((List.range n).foldl (starBody sp draws) b0).positions.length = b0.positions.length ∧
      ((List.range n).foldl (starBody sp draws) b0).rng = b0.rng + 3 * n ∧
      (∀ m, m < n * 3 → m < b0.positions.length →
        ((List.range n).foldl (starBody sp draws) b0).positions[m]? =
          some ((draws (b0.rng + m) - 0.5) * sp.range * 2)) := by
  induction n with
  | zero =>
    refine ⟨rfl, rfl, ?_⟩
    intro m hm
    exact absurd hm (by omega)
  | succ n ih =>
    obtain ⟨hp, hr, hpos⟩ := ih
    rw [List.range_succ, List.foldl_append]
    simp only [List.foldl_cons, List.foldl_nil]
    generalize (List.range n).foldl (starBody sp draws) b0 = b at hp hr hpos
    refine ⟨?_, ?_, ?_⟩
    · simp only [starBody, List.length_set, hp]
    · simp only [starBody, starCoord, random, hr]
      ring
    · intro m hm hlen
      simp only [starBody, starCoord, random, getElem?_set3, hp, hr]
      by_cases h0 : m = n * 3
      · subst h0
        simp only [if_true, hlen]
        rw [show b0.rng + n * 3 = b0.rng + 3 * n by ring]
      · by_cases h1 : m = n * 3 + 1
        · subst h1
          have e : ¬ n * 3 + 1 = n * 3 := by omega
          simp only [e, if_false, if_true, hlen]
          rw [show b0.rng + (n * 3 + 1) = b0.rng + 3 * n + 1 by ring]
        · by_cases h2 : m = n * 3 + 2
          · subst h2
            have e : ¬ n * 3 + 2 = n * 3 := by omega
            have e' : ¬ n * 3 + 2 = n * 3 + 1 := by omega
            simp only [e, e', if_false, if_true, hlen]
            rw [show b0.rng + (n * 3 + 2) = b0.rng + 3 * n + 1 + 1 by ring]
          · simp only [h0, h1, h2, if_false]
            exact hpos m (by omega) hlen

/-! ## Allocation -/

theorem trunc_neg_iff (x : α) : trunc x < 0 ↔ x ≤ -1 := by
  unfold trunc
  split_ifs with h
  · constructor
    · intro h1
      exact absurd (Int.floor_nonneg.mpr h) (not_le.mpr h1)
    · intro h1
      exact absurd (le_trans h h1) (by norm_num)
  · rw [Int.lt_iff_add_one_le, ← le_sub_iff_add_le, Int.ceil_le]
    norm_num

theorem trunc_intCast (z : ℤ) : trunc (z : α) = z := by
  unfold trunc
  split_ifs
  · exact Int.floor_intCast z
  · exact Int.ceil_intCast z

theorem newFloat32Array_ok (maxLength : ℕ) (x : α) (h : Allocates maxLength x) :
    newFloat32Array maxLength x = .ok (List.replicate (trunc x).toNat 0) := by
  have h' : ¬ (trunc x < 0 ∨ (allocLimit maxLength : ℤ) < trunc x) := by
    rintro (h1 | h1)
    · exact absurd h.1 (not_le.mpr h1)
    · exact absurd h.2 (not_le.mpr h1)
  simp only [newFloat32Array, h', if_false]

theorem newFloat32Array_error (maxLength : ℕ) (x : α) (h : ¬ Allocates maxLength x) :
    newFloat32Array maxLength x = .error .rangeError := by
  have h' : trunc x < 0 ∨ (allocLimit maxLength : ℤ) < trunc x := by
    by_contra hc
    push_neg at hc
    exact h ⟨hc.1, hc.2⟩
  simp only [newFloat32Array, h', if_true]

/-- The allocation for an integer `count`: it completes exactly when `count` is
not negative and `3 * count` is not above the limit. -/
theorem allocates_intCast (maxLength : ℕ) (z : ℤ) :
    Allocates maxLength ((z : α) * 3) ↔ 0 ≤ z ∧ 3 * z ≤ (allocLimit maxLength : ℤ) := by
  have e : (z : α) * 3 = ((3 * z : ℤ) : α) := by push_cast; ring
  unfold Allocates
  rw [e, trunc_intCast]
  constructor
  · rintro ⟨h1, h2⟩
    exact ⟨by omega, h2⟩
  · rintro ⟨h1, h2⟩
    exact ⟨by omega, h2⟩

theorem allocates_natCast (maxLength n : ℕ) :
    Allocates maxLength ((n : α) * 3) ↔ 3 * n ≤ allocLimit maxLength := by
  have h := allocates_intCast (α := α) maxLength (n : ℤ)
  rw [Int.cast_natCast] at h
  rw [h]
  constructor
  · rintro ⟨-, h2⟩
    exact_mod_cast h2
  · intro h2
    exact ⟨Int.natCast_nonneg n, by exact_mod_cast h2⟩

/-- The allocation for a `count` that is not negative and with `3 * count` not
above the limit completes. -/
theorem allocates_of_nonneg (maxLength : ℕ) (count : α) (h0 : 0 ≤ count)
    (h1 : count * 3 ≤ (allocLimit maxLength : α)) : Allocates maxLength (count * 3) := by
  have h3 : (0 : α) ≤ count * 3 := mul_nonneg h0 (by norm_num)
  unfold Allocates
  rw [trunc_of_nonneg h3]
  refine ⟨Int.floor_nonneg.mpr h3, ?_⟩
  have h4 : ((⌊count * 3⌋ : ℤ) : α) ≤ ((allocLimit maxLength : ℤ) : α) := by
    rw [Int.cast_natCast]
    exact le_trans (Int.floor_le _) h1
  exact_mod_cast h4

theorem not_allocates_of_le (maxLength : ℕ) (x : α) (h : x ≤ -1) : ¬ Allocates maxLength x := by
  intro ha
  exact absurd ha.1 (not_le.mpr ((trunc_neg_iff x).mpr h))

theorem trunc_natCast_mul_three (n : ℕ) : (trunc ((n : α) * 3)).toNat = 3 * n := by
  have : (n : α) * 3 = ((3 * n : ℕ) : α) := by push_cast; ring
  rw [this, trunc_natCast, Int.toNat_natCast]

/-! ## The outcome of a call -/

/-- A call of `generateGalaxy` whose allocation succeeds: it completes, and the
state it leaves is described field by field. -/
theorem generateGalaxy_completes (M : JSMath α) (maxLength : ℕ) (p : Parameters α)
    (draws : ℕ → α) (w : World α) (h : Allocates maxLength (p.count * 3)) :
    (generateGalaxy M maxLength p draws w).1 = .ok () ∧
      (generateGalaxy M maxLength p draws w).2.galaxyPositions =
        some (galaxyBuffers M p draws (trunc (p.count * 3)).toNat w.rng).positions ∧
      (generateGalaxy M maxLength p draws w).2.galaxyColors =
        some (galaxyBuffers M p draws (trunc (p.count * 3)).toNat w.rng).colors ∧
      (generateGalaxy M maxLength p draws w).2.rng =
        (galaxyBuffers M p draws (trunc (p.count * 3)).toNat w.rng).rng ∧
      (∃ pts : Points α, pts.id = w.nextId + 2 ∧ pts.builtBy = .galaxy ∧
        (generateGalaxy M maxLength p draws w).2.points = some pts ∧
        (generateGalaxy M maxLength p draws w).2.scene =
          (disposePrevious w.scene w.disposed w.points w.geometry w.material).1 ++
            [.points pts]) ∧
      (generateGalaxy M maxLength p draws w).2.nextId = w.nextId + 3 ∧
      (generateGalaxy M maxLength p draws w).2.starFieldPoints = w.starFieldPoints := by
  unfold generateGalaxy
  rw [newFloat32Array_ok _ _ h]
  exact ⟨rfl, rfl, rfl, rfl, ⟨_, rfl, rfl, rfl, rfl⟩, rfl, rfl⟩

/-- A call of `generateGalaxy` whose allocation fails: it throws, after the
previous cloud was removed, and the cloud variables keep their values. -/
theorem generateGalaxy_throws (M : JSMath α) (maxLength : ℕ) (p : Parameters α)
    (draws : ℕ → α) (w : World α) (h : ¬ Allocates maxLength (p.count * 3)) :
    (generateGalaxy M maxLength p draws w).1 = .error .rangeError ∧
      (generateGalaxy M maxLength p draws w).2.points = w.points ∧
      (generateGalaxy M maxLength p draws w).2.starFieldPoints = w.starFieldPoints ∧
      (generateGalaxy M maxLength p draws w).2.scene =
        (disposePrevious w.scene w.disposed w.points w.geometry w.material).1 := by
  unfold generateGalaxy
  rw [newFloat32Array_error _ _ h]
  exact ⟨rfl, rfl, rfl, rfl⟩

/-- A call of `generateStarField` whose allocation succeeds. -/
theorem generateStarField_completes (maxLength : ℕ) (sp : StarFieldParameters α)
    (draws : ℕ → α) (w : World α) (h : Allocates maxLength (sp.count * 3)) :
    (generateStarField maxLength sp draws w).1 = .ok () ∧
      (generateStarField maxLength sp draws w).2.starPositions =
        some (starBuffers sp draws (trunc (sp.count * 3)).toNat w.rng).positions ∧
      (generateStarField maxLength sp draws w).2.rng =
        (starBuffers sp draws (trunc (sp.count * 3)).toNat w.rng).rng ∧
      (∃ pts : Points α, pts.id = w.nextId + 2 ∧ pts.builtBy = .starField ∧
        (generateStarField maxLength sp draws w).2.starFieldPoints = some pts ∧
        (generateStarField maxLength sp draws w).2.scene =
          (disposePrevious w.scene w.disposed w.starFieldPoints w.starFieldGeometry
            w.starFieldMaterial).1 ++ [.points pts]) ∧
      (generateStarField maxLength sp draws w).2.nextId = w.nextId + 3 ∧
      (generateStarField maxLength sp draws w).2.points = w.points := by
  unfold generateStarField
  rw [newFloat32Array_ok _ _ h]
  exact ⟨rfl, rfl, rfl, ⟨_, rfl, rfl, rfl, rfl⟩, rfl, rfl⟩

/-- A call of `generateStarField` whose allocation fails. -/
theorem generateStarField_throws (maxLength : ℕ) (sp : StarFieldParameters α)
    (draws : ℕ → α) (w : World α) (h : ¬ Allocates maxLength (sp.count * 3)) :
    (generateStarField maxLength sp draws w).1 = .error .rangeError := by
  unfold generateStarField
  rw [newFloat32Array_error _ _ h]

/-- Whether a call of `generateGalaxy` completes is decided by the allocation
alone. -/
theorem generateGalaxy_ok_iff (M : JSMath α) (maxLength : ℕ) (p : Parameters α)
    (draws : ℕ → α) (w : World α) :
    (generateGalaxy M maxLength p draws w).1 = .ok () ↔ Allocates maxLength (p.count * 3) := by
  constructor
  · intro h
    by_contra hc
    rw [(generateGalaxy_throws M maxLength p draws w hc).1] at h
    exact absurd h (by simp)
  · intro h
    exact (generateGalaxy_completes M maxLength p draws w h).1

/-- Whether a call of `generateStarField` completes is decided by the
allocation alone. -/
theorem generateStarField_ok_iff (maxLength : ℕ) (sp : StarFieldParameters α)
    (draws : ℕ → α) (w : World α) :
    (generateStarField maxLength sp draws w).1 = .ok () ↔
      Allocates maxLength (sp.count * 3) := by
  constructor
  · intro h
    by_contra hc
    rw [generateStarField_throws maxLength sp draws w hc] at h
    exact absurd h (by simp)
  · intro h
    exact (generateStarField_completes maxLength sp draws w h).1

/-- The engine that allocates every length `ToIndex` accepts. -/
theorem allocLimit_toIndexMax : allocLimit toIndexMax = 9007199254740991 := by
  simp [allocLimit, toIndexMax]

/-! ## The buffers of the galaxy -/

/-- C1 (as the script has it): with `count` a positive integer `n`,
`generateGalaxy` completes exactly when `3 * n` is not above the largest length
of a typed array that can be allocated (never more than `2^53 - 1`); it then
builds a position buffer of exactly `3 * n` values and a colour buffer of
exactly `3 * n` values, whatever the other parameters, the draws and the state
before the call, so two runs with the same `count` give buffers of the same
lengths. -/
theorem generateGalaxy_buffer_lengths (M : JSMath α) (maxLength : ℕ) (p q : Parameters α)
    (draws draws' : ℕ → α) (w w' : World α) (n : ℕ) (hn : 0 < n) (hp : p.count = (n : α))
    (hq : q.count = (n : α)) :
    ((generateGalaxy M maxLength p draws w).1 = .ok () ↔ 3 * n ≤ allocLimit maxLength) ∧
      (3 * n ≤ allocLimit maxLength →
        (generateGalaxy M maxLength p draws w).1 = .ok () ∧
        (generateGalaxy M maxLength p draws w).2.galaxyPositions.map List.length
          = some (3 * n) ∧
        (generateGalaxy M maxLength p draws w).2.galaxyColors.map List.length
          = some (3 * n) ∧
        (generateGalaxy M maxLength q draws' w').2.galaxyPositions.map List.length =
          (generateGalaxy M maxLength p draws w).2.galaxyPositions.map List.length ∧
        (generateGalaxy M maxLength q draws' w').2.galaxyColors.map List.length =
          (generateGalaxy M maxLength p draws w).2.galaxyColors.map List.length) := by
  have _ := hn
  refine ⟨?_, ?_⟩
  · rw [generateGalaxy_ok_iff, hp, allocates_natCast]
  intro hlim
  have key : ∀ (r : Parameters α) (d : ℕ → α) (v : World α), r.count = (n : α) →
      (generateGalaxy M maxLength r d v).1 = .ok () ∧
        (generateGalaxy M maxLength r d v).2.galaxyPositions.map List.length
          = some (3 * n) ∧
        (generateGalaxy M maxLength r d v).2.galaxyColors.map List.length
          = some (3 * n) := by
    intro r d v hr
    have hv : Allocates maxLength (r.count * 3) := by
      rw [hr]; exact (allocates_natCast maxLength n).mpr hlim
    obtain ⟨h1, h2, h3, -⟩ := generateGalaxy_completes M maxLength r d v hv
    refine ⟨h1, ?_, ?_⟩
    · rw [h2, Option.map_some']
      simp only [galaxyBuffers, forLoop]
      rw [(galaxy_fold M r d _ _).1, List.length_replicate, hr, trunc_natCast_mul_three]
    · rw [h3, Option.map_some']
      simp only [galaxyBuffers, forLoop]
      rw [(galaxy_fold M r d _ _).2.1, List.length_replicate, hr, trunc_natCast_mul_three]
  obtain ⟨a1, a2, a3⟩ := key p draws w hp
  obtain ⟨-, b2, b3⟩ := key q draws' w' hq
  exact ⟨a1, a2, a3, by rw [a2, b2], by rw [a3, b3]⟩

/-- Witness of `generateGalaxy_buffer_lengths`: three particles, from the
initial state, with two different streams of draws, on an engine that
allocates every length `ToIndex` accepts. -/
theorem generateGalaxy_buffer_lengths_witness :
    (0 < 3 ∧ 3 * 3 ≤ allocLimit toIndexMax) ∧
      (generateGalaxy JSMath.real toIndexMax { (parameters : Parameters ℝ) with count := 3 }
        (fun _ => 0) World.initial).1 = .ok () ∧
      (generateGalaxy JSMath.real toIndexMax { (parameters : Parameters ℝ) with count := 3 }
        (fun _ => 0) World.initial).2.galaxyPositions.map List.length = some (3 * 3) ∧
      (generateGalaxy JSMath.real toIndexMax { (parameters : Parameters ℝ) with count := 3 }
        (fun _ => 0) World.initial).2.galaxyColors.map List.length = some (3 * 3) :=
  have hlim : 3 * 3 ≤ allocLimit toIndexMax := by rw [allocLimit_toIndexMax]; norm_num
  have h := (generateGalaxy_buffer_lengths JSMath.real toIndexMax
    { (parameters : Parameters ℝ) with count := 3 }
    { (parameters : Parameters ℝ) with count := 3 } (fun _ => 0) (fun _ => 1 / 2)
    World.initial World.initial 3 (by decide) (by norm_num) (by norm_num)).2 hlim
  ⟨⟨by decide, hlim⟩, h.1, h.2.1, h.2.2.1⟩

/-- C1 as first stated fails at `count = 10^16`, a positive integer: even on an
engine that allocates every length `ToIndex` accepts, `3 * 10^16` is above
`2^53 - 1`, the allocation of line 43 throws a `RangeError` and no buffer is
built. -/
theorem generateGalaxy_huge_count_throws :
    (generateGalaxy JSMath.real toIndexMax
        { (parameters : Parameters ℝ) with count := 10000000000000000 } (fun _ => 0)
        World.initial).1 = .error .rangeError ∧
      (generateGalaxy JSMath.real toIndexMax
        { (parameters : Parameters ℝ) with count := 10000000000000000 } (fun _ => 0)
        World.initial).2.galaxyPositions = none := by
  have hna : ¬ Allocates toIndexMax
      (({ (parameters : Parameters ℝ) with count := 10000000000000000 }).count * 3) := by
    have e : ({ (parameters : Parameters ℝ) with count := 10000000000000000 }).count =
        ((10000000000000000 : ℕ) : ℝ) := by norm_num
    rw [e, allocates_natCast, allocLimit_toIndexMax]
    norm_num
  obtain ⟨h1, h2, -⟩ := generateGalaxy_throws JSMath.real toIndexMax _ (fun _ => 0)
    World.initial hna
  refine ⟨h1, ?_⟩
  unfold World.galaxyPositions
  rw [h2]
  rfl

/-! ## Malformed parameters -/

/-- C9 (as the script has it): `generateGalaxy` checks none of its parameters
and its only failure is that of the allocation of line 43.  With `count` an
integer, whatever `radius`, `branches`, `spin`, `randomness`, `randomnessPower`
and the colours are, the call completes and leaves a cloud with a position and
a colour buffer exactly when `count` is not negative and `3 * count` is not
above the largest length of a typed array that can be allocated; otherwise
(`count` negative, or `3 * count` above that length) it throws a `RangeError`
and the variable `points` keeps its value. -/
theorem generateGalaxy_outcome (M : JSMath α) (maxLength : ℕ) (p : Parameters α)
    (draws : ℕ → α) (w : World α) (z : ℤ) (hz : p.count = (z : α)) :
    ((generateGalaxy M maxLength p draws w).1 = .ok () ↔
        0 ≤ z ∧ 3 * z ≤ (allocLimit maxLength : ℤ)) ∧
      ((generateGalaxy M maxLength p draws w).1 = .error .rangeError ↔
        z < 0 ∨ (allocLimit maxLength : ℤ) < 3 * z) ∧
      (((0 ≤ z ∧ 3 * z ≤ (allocLimit maxLength : ℤ)) ∧
          (generateGalaxy M maxLength p draws w).1 = .ok () ∧
          ∃ positions colors,
            (generateGalaxy M maxLength p draws w).2.galaxyPositions = some positions ∧
            (generateGalaxy M maxLength p draws w).2.galaxyColors = some colors) ∨
        ((z < 0 ∨ (allocLimit maxLength : ℤ) < 3 * z) ∧
          (generateGalaxy M maxLength p draws w).1 = .error .rangeError ∧
          (generateGalaxy M maxLength p draws w).2.points = w.points)) := by
  have hiff : Allocates maxLength (p.count * 3) ↔ 0 ≤ z ∧ 3 * z ≤ (allocLimit maxLength : ℤ) := by
    rw [hz]; exact allocates_intCast maxLength z
  by_cases ha : Allocates maxLength (p.count * 3)
  · have hz' := hiff.mp ha
    obtain ⟨h1, h2, h3, -⟩ := generateGalaxy_completes M maxLength p draws w ha
    refine ⟨⟨fun _ => hz', fun _ => h1⟩, ⟨fun e => ?_, fun h' => ?_⟩,
      Or.inl ⟨hz', h1, _, _, h2, h3⟩⟩
    · rw [h1] at e
      exact absurd e (by simp)
    · rcases h' with h' | h' <;> omega
  · have hz' : z < 0 ∨ (allocLimit maxLength : ℤ) < 3 * z := by
      by_contra hc
      push_neg at hc
      exact ha (hiff.mpr ⟨hc.1, hc.2⟩)
    obtain ⟨h1, h2, -⟩ := generateGalaxy_throws M maxLength p draws w ha
    refine ⟨⟨fun e => ?_, fun h' => absurd (hiff.mpr h') ha⟩, ⟨fun _ => hz', fun _ => h1⟩,
      Or.inr ⟨hz', h1, h2⟩⟩
    rw [h1] at e
    exact absurd e (by simp)

/-- Witness of `generateGalaxy_outcome`: the initial parameters with `count`
set to 3 and `branches` to 0, from the initial state, on an engine that
allocates every length `ToIndex` accepts; the call completes. -/
theorem generateGalaxy_outcome_witness :
    ({ (parameters : Parameters ℝ) with count := 3, branches := 0 }).count = ((3 : ℤ) : ℝ) ∧
      ((generateGalaxy JSMath.real toIndexMax
          { (parameters : Parameters ℝ) with count := 3, branches := 0 } (fun _ => 0)
          World.initial).1 = .ok () ↔
        (0 : ℤ) ≤ 3 ∧ 3 * (3 : ℤ) ≤ (allocLimit toIndexMax : ℤ)) ∧
      (generateGalaxy JSMath.real toIndexMax
        { (parameters : Parameters ℝ) with count := 3, branches := 0 } (fun _ => 0)
        World.initial).1 = .ok () :=
  have hz : ({ (parameters : Parameters ℝ) with count := 3, branches := 0 }).count =
      ((3 : ℤ) : ℝ) := by norm_num
  have h := (generateGalaxy_outcome JSMath.real toIndexMax
    { (parameters : Parameters ℝ) with count := 3, branches := 0 } (fun _ => 0)
    World.initial 3 hz).1
  ⟨hz, h, h.mpr ⟨by norm_num, by rw [allocLimit_toIndexMax]; norm_num⟩⟩

/-- C9 as first stated fails at `count = -1`: the call of `generateGalaxy` from
the initial state throws a `RangeError`, and no galaxy cloud is built. -/
theorem generateGalaxy_negative_count_throws :
    (generateGalaxy JSMath.real toIndexMax { (parameters : Parameters ℝ) with count := -1 }
        (fun _ => 0) World.initial).1 = .error .rangeError ∧
      (generateGalaxy JSMath.real toIndexMax { (parameters : Parameters ℝ) with count := -1 }
        (fun _ => 0) World.initial).2.points = none := by
  have h := generateGalaxy_throws JSMath.real toIndexMax
    { (parameters : Parameters ℝ) with count := -1 } (fun _ => 0) World.initial
    (not_allocates_of_le _ _ (by norm_num))
  exact ⟨h.1, h.2.1⟩

/-! ## The star field -/

theorem starCoord_mem_range (range u : α) (hr : 0 ≤ range) (h0 : 0 ≤ u) (h1 : u < 1) :
    -range ≤ (u - 0.5) * range * 2 ∧ (u - 0.5) * range * 2 ≤ range := by
  have e : (u - 0.5) * range * 2 = (2 * u - 1) * range := by norm_num; ring
  rw [e]
  constructor
  · have : 0 ≤ (2 * u) * range := mul_nonneg (mul_nonneg (by norm_num) h0) hr
    linarith
  · have : 0 ≤ (2 - 2 * u) * range := mul_nonneg (by linarith) hr
    linarith

/-- C4: with `count` a positive integer `n`, `range ≥ 0` and draws in `[0, 1)`,
`generateStarField` completes exactly when the allocation of its `3 * n`
coordinates does, and the position buffer it then builds has `3 * n`
coordinates; coordinate `m` is `(u - 0.5) * range * 2` for the `m`-th draw `u`
of the call, and every coordinate lies in `[-range, range]`. -/
theorem generateStarField_coordinates_in_range (maxLength : ℕ) (sp : StarFieldParameters α)
    (draws : ℕ → α) (w : World α) (n : ℕ) (hn : 0 < n) (hc : sp.count = (n : α))
    (hr : 0 ≤ sp.range) (hd : ∀ k, 0 ≤ draws k ∧ draws k < 1) :
    ((generateStarField maxLength sp draws w).1 = .ok () ↔ 3 * n ≤ allocLimit maxLength) ∧
      ((generateStarField maxLength sp draws w).1 = .ok () →
        ∃ positions, (generateStarField maxLength sp draws w).2.starPositions = some positions ∧
          positions.length = 3 * n ∧
          (∀ m, m < 3 * n →
            positions[m]? = some ((draws (w.rng + m) - 0.5) * sp.range * 2)) ∧
          ∀ x ∈ positions, -sp.range ≤ x ∧ x ≤ sp.range) := by
  have _ := hn
  have hiff : (generateStarField maxLength sp draws w).1 = .ok () ↔
      3 * n ≤ allocLimit maxLength := by
    rw [generateStarField_ok_iff, hc, allocates_natCast]
  refine ⟨hiff, ?_⟩
  intro hok
  have hv : Allocates maxLength (sp.count * 3) :=
    (generateStarField_ok_iff maxLength sp draws w).mp hok
  obtain ⟨-, h2, -⟩ := generateStarField_completes maxLength sp draws w hv
  have hlen : (trunc (sp.count * 3)).toNat = 3 * n := by rw [hc, trunc_natCast_mul_three]
  have hceil : ⌈sp.count⌉₊ = n := by rw [hc, Nat.ceil_natCast]
  obtain ⟨f1, -, f3⟩ := star_fold sp draws
    { positions := List.replicate (3 * n) 0, rng := w.rng } n
  simp only [List.length_replicate] at f1 f3
  have hidx : ∀ m, m < 3 * n →
      (starBuffers sp draws (trunc (sp.count * 3)).toNat w.rng).positions[m]? =
        some ((draws (w.rng + m) - 0.5) * sp.range * 2) := by
    intro m hm
    simp only [starBuffers, forLoop, hlen, hceil]
    exact f3 m (by omega) hm
  have hl : (starBuffers sp draws (trunc (sp.count * 3)).toNat w.rng).positions.length
      = 3 * n := by
    simp only [starBuffers, forLoop, hlen, hceil]
    exact f1
  refine ⟨_, h2, hl, hidx, ?_⟩
  intro x hx
  obtain ⟨m, hm⟩ := List.mem_iff_getElem?.mp hx
  have hmlt : m < 3 * n := by
    rw [← hl]
    exact (List.getElem?_eq_some.mp hm).1
  rw [hidx m hmlt] at hm
  have hxe : (draws (w.rng + m) - 0.5) * sp.range * 2 = x := Option.some.inj hm
  rw [← hxe]
  exact starCoord_mem_range sp.range _ hr (hd _).1 (hd _).2

/-- Witness of `generateStarField_coordinates_in_range`: two stars, range 10,
every draw equal to a quarter, on an engine that allocates every length
`ToIndex` accepts; the call completes. -/
theorem generateStarField_coordinates_in_range_witness :
    (generateStarField toIndexMax
        { (starFieldParameters : StarFieldParameters ℚ) with count := 2 }
        (fun _ => 1 / 4) World.initial).1 = .ok () ∧
      ∃ positions,
        (generateStarField toIndexMax
          { (starFieldParameters : StarFieldParameters ℚ) with count := 2 }
          (fun _ => 1 / 4) World.initial).2.starPositions = some positions ∧
        positions.length = 3 * 2 ∧
        (∀ m, m < 3 * 2 →
          positions[m]? = some (((fun _ => 1 / 4 : ℕ → ℚ) ((World.initial : World ℚ).rng + m)
            - 0.5) * ({ (starFieldParameters : StarFieldParameters ℚ) with count := 2 }).range
              * 2)) ∧
        ∀ x ∈ positions,
          -({ (starFieldParameters : StarFieldParameters ℚ) with count := 2 }).range ≤ x ∧
            x ≤ ({ (starFieldParameters : StarFieldParameters ℚ) with count := 2 }).range :=
  have h := generateStarField_coordinates_in_range toIndexMax
    { (starFieldParameters : StarFieldParameters ℚ) with count := 2 } (fun _ => 1 / 4)
    World.initial 2 (by decide) (by norm_num) (by norm_num [starFieldParameters])
    (fun _ => by norm_num)
  have hok := h.1.mpr (by rw [allocLimit_toIndexMax]; norm_num)
  ⟨hok, h.2 hok⟩

/-! ## The particles of the galaxy -/

/-- With `count` a natural number `n`, a call of `generateGalaxy` that
completes leaves the values of particle `i < n`, computed from the draws `9 i`
to `9 i + 8` of the call, in slots `3 i`, `3 i + 1` and `3 i + 2` of its two
buffers. -/
theorem generateGalaxy_particle (M : JSMath α) (maxLength : ℕ) (p : Parameters α)
    (draws : ℕ → α) (w : World α) (n : ℕ) (hc : p.count = (n : α))
    (hok : (generateGalaxy M maxLength p draws w).1 = .ok ()) :
    ∃ positions colors,
      (generateGalaxy M maxLength p draws w).2.galaxyPositions = some positions ∧
      (generateGalaxy M maxLength p draws w).2.galaxyColors = some colors ∧
      ∀ i, i < n →
        positions[i * 3]? = some (galaxyParticle M p draws i (w.rng + 9 * i)).x ∧
        positions[i * 3 + 1]? = some (galaxyParticle M p draws i (w.rng + 9 * i)).y ∧
        positions[i * 3 + 2]? = some (galaxyParticle M p draws i (w.rng + 9 * i)).z ∧
        colors[i * 3]? = some (galaxyParticle M p draws i (w.rng + 9 * i)).mixedColor.r ∧
        colors[i * 3 + 1]? = some (galaxyParticle M p draws i (w.rng + 9 * i)).mixedColor.g ∧
        colors[i * 3 + 2]? = some (galaxyParticle M p draws i (w.rng + 9 * i)).mixedColor.b := by
  have hv : Allocates maxLength (p.count * 3) :=
    (generateGalaxy_ok_iff M maxLength p draws w).mp hok
  obtain ⟨-, h2, h3, -⟩ := generateGalaxy_completes M maxLength p draws w hv
  have hlen : (trunc (p.count * 3)).toNat = 3 * n := by rw [hc, trunc_natCast_mul_three]
  have hceil : ⌈p.count⌉₊ = n := by rw [hc, Nat.ceil_natCast]
  obtain ⟨-, -, -, fp, fc⟩ := galaxy_fold M p draws
    { positions := List.replicate (3 * n) 0, colors := List.replicate (3 * n) 0, rng := w.rng } n
  simp only [List.length_replicate] at fp fc
  refine ⟨_, _, h2, h3, ?_⟩
  intro i hi
  simp only [galaxyBuffers, forLoop, hlen, hceil]
  obtain ⟨a0, a1, a2⟩ := fp i hi (by omega)
  obtain ⟨c0, c1, c2⟩ := fc i hi (by omega)
  exact ⟨a0, a1, a2, c0, c1, c2⟩

theorem generateGalaxy_ok_iff_natCast (M : JSMath α) (maxLength : ℕ) (p : Parameters α)
    (draws : ℕ → α) (w : World α) (n : ℕ) (hc : p.count = (n : α)) :
    (generateGalaxy M maxLength p draws w).1 = .ok () ↔ 3 * n ≤ allocLimit maxLength := by
  rw [generateGalaxy_ok_iff, hc, allocates_natCast]

/-! ## The end-to-end scenario -/

theorem zero_rpow_draw (e : ℝ) : Real.rpow 0 e = if e = 0 then 1 else 0 := by
  by_cases h : e = 0
  · simp [h]
  · simp [h, Real.zero_rpow h]

theorem scenario_branchAngle (i : ℕ) (hi : i < 3) :
    branchAngle JSMath.real (scenario : Parameters ℝ) i = 2 * Real.pi * (i : ℝ) / 3 := by
  have h3 : (scenario : Parameters ℝ).branches = ((3 : ℕ) : ℝ) := by
    simp [scenario]
  unfold branchAngle
  rw [h3, jsRem_natCast, Nat.mod_eq_of_lt hi]
  simp only [JSMath.real]
  push_cast
  ring

/-- The particle of index `i < 3` of the scenario, the draws read from position
`k` on: its radius is `Math.pow(0, e)` for the second draw `e`, that is 1 when
`e = 0` and 0 otherwise; each offset is the draw of its magnitude with the sign
of the draw that follows. -/
theorem scenario_particle (draws : ℕ → ℝ) (i k : ℕ) (hi : i < 3) :
    (galaxyParticle JSMath.real scenario draws i k).x =
        Real.cos (2 * Real.pi * (i : ℝ) / 3) * (if draws (k + 1) = 0 then 1 else 0) +
          draws (k + 2) * (if draws (k + 3) > 0.5 then 1 else -1) ∧
      (galaxyParticle JSMath.real scenario draws i k).y =
        draws (k + 4) * (if draws (k + 5) > 0.5 then 1 else -1) ∧
      (galaxyParticle JSMath.real scenario draws i k).z =
        Real.sin (2 * Real.pi * (i : ℝ) / 3) * (if draws (k + 1) = 0 then 1 else 0) +
          draws (k + 6) * (if draws (k + 7) > 0.5 then 1 else -1) := by
  have hb := scenario_branchAngle i hi
  have hr : JSMath.real.pow (draws k * (scenario : Parameters ℝ).randomness)
      (draws (k + 1) * (scenario : Parameters ℝ).radius) =
      if draws (k + 1) = 0 then 1 else 0 := by
    simp only [scenario, JSMath.real, mul_zero, mul_one]
    exact zero_rpow_draw _
  have hp : ∀ u : ℝ, JSMath.real.pow u (scenario : Parameters ℝ).randomnessPower = u := by
    intro u
    simp only [scenario, JSMath.real]
    exact Real.rpow_one u
  refine ⟨?_, ?_, ?_⟩ <;>
    simp only [galaxyParticle, randomCoord, randomSign, random, hb, hr, hp] <;>
    simp only [scenario, mul_zero, add_zero] <;>
    rfl

theorem scenario_count : (scenario : Parameters ℝ).count = ((3 : ℕ) : ℝ) := by
  simp [scenario]

/-- C2 (as the script has it): in the scenario the call completes exactly when
the nine values of each buffer can be allocated, and then, whatever the draws,
particle `i` is at `(cos (2πi/3) * r + ox, oy, sin (2πi/3) * r + oz)`, where `r`
is 1 when the draw of the exponent of its radius is 0 and 0 otherwise, and each
of `ox`, `oy`, `oz` is the draw of its magnitude with the sign of the draw that
follows (the offsets are not scaled by `randomness`); when every draw is 0
the particle is exactly at `(cos (2πi/3), 0, sin (2πi/3))`, on the unit circle
of the x-z plane. -/
theorem scenario_positions (maxLength : ℕ) (draws : ℕ → ℝ) (w : World ℝ) (i : Fin 3) :
    ((generateGalaxy JSMath.real maxLength scenario draws w).1 = .ok () ↔
        9 ≤ allocLimit maxLength) ∧
      ((generateGalaxy JSMath.real maxLength scenario draws w).1 = .ok () →
        ∃ positions,
          (generateGalaxy JSMath.real maxLength scenario draws w).2.galaxyPositions
            = some positions ∧
          positions[(i : ℕ) * 3]? =
            some (Real.cos (2 * Real.pi * ((i : ℕ) : ℝ) / 3) *
                (if draws (w.rng + 9 * (i : ℕ) + 1) = 0 then 1 else 0) +
              draws (w.rng + 9 * (i : ℕ) + 2) *
                (if draws (w.rng + 9 * (i : ℕ) + 3) > 0.5 then 1 else -1)) ∧
          positions[(i : ℕ) * 3 + 1]? =
            some (draws (w.rng + 9 * (i : ℕ) + 4) *
              (if draws (w.rng + 9 * (i : ℕ) + 5) > 0.5 then 1 else -1)) ∧
          positions[(i : ℕ) * 3 + 2]? =
            some (Real.sin (2 * Real.pi * ((i : ℕ) : ℝ) / 3) *
                (if draws (w.rng + 9 * (i : ℕ) + 1) = 0 then 1 else 0) +
              draws (w.rng + 9 * (i : ℕ) + 6) *
                (if draws (w.rng + 9 * (i : ℕ) + 7) > 0.5 then 1 else -1))) ∧
      ((generateGalaxy JSMath.real maxLength scenario (fun _ => 0) w).1 = .ok () →
        ∃ positions,
          (generateGalaxy JSMath.real maxLength scenario (fun _ => 0) w).2.galaxyPositions
            = some positions ∧
          positions[(i : ℕ) * 3]? = some (Real.cos (2 * Real.pi * ((i : ℕ) : ℝ) / 3)) ∧
          positions[(i : ℕ) * 3 + 1]? = some 0 ∧
          positions[(i : ℕ) * 3 + 2]? =
            some (Real.sin (2 * Real.pi * ((i : ℕ) : ℝ) / 3))) := by
  refine ⟨?_, ?_, ?_⟩
  · have h := generateGalaxy_ok_iff_natCast JSMath.real maxLength scenario draws w 3
      scenario_count
    simpa using h
  · intro hok
    obtain ⟨positions, _, hp, _, h⟩ :=
      generateGalaxy_particle JSMath.real maxLength scenario draws w 3 scenario_count hok
    obtain ⟨h0, h1, h2, -⟩ := h i i.isLt
    obtain ⟨ex, ey, ez⟩ := scenario_particle draws i (w.rng + 9 * (i : ℕ)) i.isLt
    exact ⟨positions, hp, by rw [h0, ex], by rw [h1, ey], by rw [h2, ez]⟩
  · intro hok
    obtain ⟨positions, _, hp, _, h⟩ :=
      generateGalaxy_particle JSMath.real maxLength scenario (fun _ => 0) w 3 scenario_count hok
    obtain ⟨h0, h1, h2, -⟩ := h i i.isLt
    obtain ⟨ex, ey, ez⟩ := scenario_particle (fun _ => 0) i (w.rng + 9 * (i : ℕ)) i.isLt
    refine ⟨positions, hp, ?_, ?_, ?_⟩
    · rw [h0, ex]; simp
    · rw [h1, ey]; simp
    · rw [h2, ez]; simp

/-- C2 as first stated fails when every draw equals one half (a draw in
`[0, 1)`): from the initial state, on an engine that allocates every length
`ToIndex` accepts, the call completes and the first particle is at
`(-1/2, -1/2, -1/2)`: its radius is `Math.pow(0, 1/2) = 0` and each offset is
`-1/2`.  The point at angle 0 of the unit circle is `(1, 0, 0)`. -/
theorem scenario_half_draws_off_circle :
    (∀ k : ℕ, (0 : ℝ) ≤ (fun _ => 1 / 2 : ℕ → ℝ) k ∧ (fun _ => 1 / 2 : ℕ → ℝ) k < 1) ∧
      (generateGalaxy JSMath.real toIndexMax scenario (fun _ => 1 / 2) World.initial).1
        = .ok () ∧
      ∃ positions,
        (generateGalaxy JSMath.real toIndexMax scenario (fun _ => 1 / 2)
          World.initial).2.galaxyPositions = some positions ∧
        positions[0]? = some (-1 / 2 : ℝ) ∧
        positions[1]? = some (-1 / 2 : ℝ) ∧
        positions[2]? = some (-1 / 2 : ℝ) ∧
        (-1 / 2 : ℝ) ≠ Real.cos (2 * Real.pi * 0 / 3) ∧
        (-1 / 2 : ℝ) ≠ 0 ∧
        (-1 / 2 : ℝ) ≠ Real.sin (2 * Real.pi * 0 / 3) := by
  have hok : (generateGalaxy JSMath.real toIndexMax scenario (fun _ => 1 / 2)
      World.initial).1 = .ok () := by
    rw [generateGalaxy_ok_iff_natCast JSMath.real toIndexMax scenario _ _ 3 scenario_count,
      allocLimit_toIndexMax]
    norm_num
  refine ⟨fun _ => by norm_num, hok, ?_⟩
  obtain ⟨positions, _, hp, _, h⟩ :=
    generateGalaxy_particle JSMath.real toIndexMax scenario (fun _ => 1 / 2) World.initial 3
      scenario_count hok
  obtain ⟨h0, h1, h2, -⟩ := h 0 (by decide)
  obtain ⟨ex, ey, ez⟩ := scenario_particle (fun _ => 1 / 2)
    0 ((World.initial : World ℝ).rng + 9 * 0) (by decide)
  refine ⟨positions, hp, ?_, ?_, ?_, ?_, ?_, ?_⟩
  · have := h0
    simp only [Nat.zero_mul] at this
    rw [this, ex]
    norm_num
  · have := h1
    simp only [Nat.zero_mul, Nat.zero_add] at this
    rw [this, ey]
    norm_num
  · have := h2
    simp only [Nat.zero_mul, Nat.zero_add] at this
    rw [this, ez]
    norm_num
  · norm_num
  · norm_num
  · norm_num

/-! ## The colour factor -/

theorem wideRadius_particle :
    (galaxyParticle JSMath.real wideRadius wideDraws 0 0).radius = 2.7 ∧
      (galaxyParticle JSMath.real wideRadius wideDraws 0 0).mixFactor = 1.215 := by
  have hr : JSMath.real.pow (wideDraws 0 * (wideRadius : Parameters ℝ).randomness)
      (wideDraws 1 * (wideRadius : Parameters ℝ).radius) = 2.7 := by
    have e : (wideDraws 1 : ℝ) * (wideRadius : Parameters ℝ).radius = 1 := by
      norm_num [wideDraws, wideRadius]
    rw [e]
    simp only [JSMath.real]
    rw [Real.rpow_eq_pow, Real.rpow_one]
    norm_num [wideDraws, wideRadius, parameters]
  constructor
  · simp only [galaxyParticle, random, hr]
  · simp only [galaxyParticle, randomCoord, randomSign, random, hr]
    norm_num [wideDraws, wideRadius]

/-- The parameters `wideRadius` are those the panel leaves when the control of
`radius` is given the value 2. -/
theorem wideRadius_reachable :
    panelRun [PanelEvent.number .radius 2] (parameters : Parameters ℝ) = wideRadius := by
  have hround : mathRound ((2 : ℝ) / 0.1) = 20 := by
    unfold mathRound
    rw [Int.floor_eq_iff]
    constructor <;> norm_num
  have hsnap : NumberController.snap
      ({ property := .radius, min := 0.1, max := 5, step := 0.1 } : NumberController ℝ) 2
      = 2 := by
    simp only [NumberController.snap, hround]
    norm_num
  have hclamp : NumberController.clamp
      ({ property := .radius, min := 0.1, max := 5, step := 0.1 } : NumberController ℝ) 2
      = 2 := by
    simp only [NumberController.clamp]
    norm_num
  have happ : (PanelEvent.number .radius 2).apply (parameters : Parameters ℝ) =
      (parameters : Parameters ℝ).set .radius
        (NumberController.clamp
          ({ property := .radius, min := 0.1, max := 5, step := 0.1 } : NumberController ℝ)
          (NumberController.snap
            ({ property := .radius, min := 0.1, max := 5, step := 0.1 } : NumberController ℝ)
            2)) := rfl
  show (PanelEvent.number .radius 2).apply (parameters : Parameters ℝ) = wideRadius
  rw [happ, hsnap, hclamp]
  rfl

/-- C10: the colour factor is not confined to `[0, 1]`.  With the initial
parameters and `radius` set to 2 through the panel (all inside its ranges) and the
draws 0.9 and 0.5 for the radius of the first particle and 0.9 for its colour
(all in `[0, 1)`), the radius of the particle is `(0.9 * 3) ^ (0.5 * 2) = 2.7`
and its colour factor is `0.9 * 2.7 / 2 = 1.215 > 1`; the call of
`generateGalaxy` from the initial state completes exactly when its 300000
values can be allocated, and the red component it writes for the particle lies
below that of the outside colour, on the far side from the inside colour. -/
theorem colour_factor_exceeds_one (maxLength : ℕ) :
    panelRun [PanelEvent.number .radius 2] (parameters : Parameters ℝ) = wideRadius ∧
      Admitted (wideRadius : Parameters ℝ) ∧
      (∀ k : ℕ, (0 : ℝ) ≤ wideDraws k ∧ (wideDraws k : ℝ) < 1) ∧
      (galaxyParticle JSMath.real wideRadius wideDraws 0 0).radius = 2.7 ∧
      (galaxyParticle JSMath.real wideRadius wideDraws 0 0).mixFactor = 1.215 ∧
      1 < (galaxyParticle JSMath.real wideRadius wideDraws 0 0).mixFactor ∧
      (galaxyParticle JSMath.real wideRadius wideDraws 0 0).mixedColor.r <
        (wideRadius : Parameters ℝ).outsideColor.r ∧
      (wideRadius : Parameters ℝ).outsideColor.r <
        (wideRadius : Parameters ℝ).insideColor.r ∧
      ((generateGalaxy JSMath.real maxLength wideRadius wideDraws World.initial).1 = .ok () ↔
        300000 ≤ allocLimit maxLength) ∧
      ((generateGalaxy JSMath.real maxLength wideRadius wideDraws World.initial).1 = .ok () →
        ∃ colors : List ℝ,
          (generateGalaxy JSMath.real maxLength wideRadius wideDraws
            World.initial).2.galaxyColors = some colors ∧
          colors[0]? =
            some (galaxyParticle JSMath.real wideRadius wideDraws 0 0).mixedColor.r) ∧
      ∃ colors : List ℝ,
        (generateGalaxy JSMath.real toIndexMax wideRadius wideDraws
          World.initial).2.galaxyColors = some colors ∧
        colors[0]? =
          some (galaxyParticle JSMath.real wideRadius wideDraws 0 0).mixedColor.r := by
  obtain ⟨hrad, hfac⟩ := wideRadius_particle
  have hadm : Admitted (wideRadius : Parameters ℝ) := by
    have h := admitted_parameters (α := ℝ)
    exact ⟨h.count, by norm_num [wideRadius], h.branches, h.branchesInt, h.spin, h.randomness,
      h.randomnessPower⟩
  have hdraws : ∀ k : ℕ, (0 : ℝ) ≤ wideDraws k ∧ (wideDraws k : ℝ) < 1 := by
    intro k
    unfold wideDraws
    split_ifs <;> norm_num
  have hcount : (wideRadius : Parameters ℝ).count = ((100000 : ℕ) : ℝ) := by
    simp [wideRadius, parameters]
  have hin : (wideRadius : Parameters ℝ).insideColor.r = 1 := by
    norm_num [wideRadius, parameters, Color.ofHex]
  have hout : (wideRadius : Parameters ℝ).outsideColor.r = 9 / 255 := by
    norm_num [wideRadius, parameters, Color.ofHex]
  have hmix : (galaxyParticle JSMath.real wideRadius wideDraws 0 0).mixedColor.r =
      1 + (9 / 255 - 1) * 1.215 := by
    have e : (galaxyParticle JSMath.real wideRadius wideDraws 0 0).mixedColor.r =
        (wideRadius : Parameters ℝ).insideColor.r +
          ((wideRadius : Parameters ℝ).outsideColor.r -
            (wideRadius : Parameters ℝ).insideColor.r) *
            (galaxyParticle JSMath.real wideRadius wideDraws 0 0).mixFactor := rfl
    rw [e, hin, hout, hfac]
  have hpart : ∀ L : ℕ,
      (generateGalaxy JSMath.real L wideRadius wideDraws World.initial).1 = .ok () →
      ∃ colors : List ℝ,
        (generateGalaxy JSMath.real L wideRadius wideDraws World.initial).2.galaxyColors
          = some colors ∧
        colors[0]? =
          some (galaxyParticle JSMath.real wideRadius wideDraws 0 0).mixedColor.r := by
    intro L hok
    obtain ⟨_, colors, _, hc, h⟩ :=
      generateGalaxy_particle JSMath.real L wideRadius wideDraws World.initial 100000
        hcount hok
    obtain ⟨-, -, -, c0, -⟩ := h 0 (by norm_num)
    exact ⟨colors, hc, by simpa using c0⟩
  have hmax : (generateGalaxy JSMath.real toIndexMax wideRadius wideDraws World.initial).1
      = .ok () := by
    rw [generateGalaxy_ok_iff_natCast JSMath.real toIndexMax wideRadius _ _ 100000 hcount,
      allocLimit_toIndexMax]
    norm_num
  refine ⟨wideRadius_reachable, hadm, hdraws, hrad, hfac, by rw [hfac]; norm_num, ?_, ?_, ?_,
    hpart maxLength, hpart toIndexMax hmax⟩
  · rw [hmix, hout]; norm_num
  · rw [hin, hout]; norm_num
  · have h := generateGalaxy_ok_iff_natCast JSMath.real maxLength wideRadius wideDraws
      World.initial 100000 hcount
    simpa using h

/-! ## The scene -/

/-- Removing a child by identity from a scene whose children have distinct
identities removes exactly that child. -/
theorem sceneRemove_split (scene : List (Object3D α)) (x : Object3D α)
    (hnd : (scene.map Object3D.id).Nodup) (hx : x ∈ scene) :
    ∃ l1 l2, scene = l1 ++ x :: l2 ∧ sceneRemove scene x.id = l1 ++ l2 := by
  obtain ⟨l1, l2, rfl⟩ := List.append_of_mem hx
  refine ⟨l1, l2, rfl, ?_⟩
  have hnot : ∀ b ∈ l1, ¬ (fun o : Object3D α => o.id == x.id) b = true := by
    intro b hb hbx
    have hid : b.id = x.id := by simpa using hbx
    rw [List.map_append, List.map_cons] at hnd
    have hdisj := (List.nodup_append.mp hnd).2.2
    exact hdisj (List.mem_map_of_mem Object3D.id hb) (by rw [hid]; exact List.mem_cons_self _ _)
  unfold sceneRemove
  rw [List.eraseP_append_right _ hnot, List.eraseP_cons_of_pos (by simp)]

/-- The scene after the previous cloud of generator `g` (if any) was removed:
it holds no cloud of `g`, and the clouds of the other generator are as
before. -/
theorem scene_removed (scene : List (Object3D α)) (g : Generator)
    (slot : Option (Points α)) (d : List ℕ)
    (ge : Option (BufferGeometry α)) (ma : Option (PointsMaterial α))
    (hnd : (scene.map Object3D.id).Nodup)
    (hs : Slot (scene.filter (Object3D.isCloudOf g)) g slot) :
    List.Sublist (disposePrevious scene d slot ge ma).1 scene ∧
      (disposePrevious scene d slot ge ma).1.filter (Object3D.isCloudOf g) = [] ∧
      ∀ g', g' ≠ g → (disposePrevious scene d slot ge ma).1.filter (Object3D.isCloudOf g') =
        scene.filter (Object3D.isCloudOf g') := by
  cases slot with
  | none => exact ⟨List.Sublist.refl _, hs, fun _ _ => rfl⟩
  | some p =>
    obtain ⟨hpb, hpf⟩ := hs
    have hmem : Object3D.points p ∈ scene := by
      have : Object3D.points p ∈ scene.filter (Object3D.isCloudOf g) := by
        rw [hpf]; exact List.mem_singleton_self _
      exact (List.mem_filter.mp this).1
    obtain ⟨l1, l2, hsplit, herase⟩ := sceneRemove_split scene (.points p) hnd hmem
    have hpg : Object3D.isCloudOf g (Object3D.points p) = true := by
      simp [Object3D.isCloudOf, hpb]
    have he : (disposePrevious scene d (some p) ge ma).1 = l1 ++ l2 := herase
    rw [he]
    refine ⟨?_, ?_, ?_⟩
    · rw [hsplit]
      exact List.Sublist.append (List.Sublist.refl _) (List.sublist_cons_self _ _)
    · rw [hsplit, List.filter_append, List.filter_cons_of_pos hpg] at hpf
      have hlen := congrArg List.length hpf
      simp only [List.length_append, List.length_cons, List.length_nil] at hlen
      have h1 : (l1.filter (Object3D.isCloudOf g)).length = 0 := by omega
      have h2 : (l2.filter (Object3D.isCloudOf g)).length = 0 := by omega
      rw [List.filter_append, List.length_eq_zero.mp h1, List.length_eq_zero.mp h2]
      rfl
    · intro g' hg
      have hpg' : ¬ Object3D.isCloudOf g' (Object3D.points p) = true := by
        simp only [Object3D.isCloudOf, hpb, decide_eq_true_eq]
        exact fun h => hg h.symm
      rw [hsplit, List.filter_append, List.filter_append, List.filter_cons_of_neg hpg']

/-- The scene after the previous cloud of generator `g` (if any) was removed
and a new cloud of `g`, with a new identity, was added: the new cloud is the
only cloud of `g`, and the clouds of the other generator are as before. -/
theorem scene_replace (scene : List (Object3D α)) (next : ℕ) (g : Generator)
    (slot : Option (Points α)) (pts : Points α) (d : List ℕ)
    (ge : Option (BufferGeometry α)) (ma : Option (PointsMaterial α))
    (hnd : (scene.map Object3D.id).Nodup) (hlt : ∀ o ∈ scene, o.id < next)
    (hs : Slot (scene.filter (Object3D.isCloudOf g)) g slot)
    (hid : next ≤ pts.id) (hb : pts.builtBy = g) :
    (((disposePrevious scene d slot ge ma).1 ++ [Object3D.points pts]).map Object3D.id).Nodup ∧
      (∀ o ∈ (disposePrevious scene d slot ge ma).1 ++ [Object3D.points pts],
        o.id < pts.id + 1) ∧
      ((disposePrevious scene d slot ge ma).1 ++ [Object3D.points pts]).filter
        (Object3D.isCloudOf g) = [.points pts] ∧
      ∀ g', g' ≠ g →
        ((disposePrevious scene d slot ge ma).1 ++ [Object3D.points pts]).filter
          (Object3D.isCloudOf g') = scene.filter (Object3D.isCloudOf g') := by
  have hnew : Object3D.isCloudOf g (Object3D.points pts) = true := by
    simp [Object3D.isCloudOf, hb]
  have hother : ∀ g', g' ≠ g → Object3D.isCloudOf g' (Object3D.points pts) = false := by
    intro g' hg
    simp only [Object3D.isCloudOf, hb, decide_eq_false_iff_not]
    exact fun h => hg h.symm
  obtain ⟨hsub, hf, hf'⟩ := scene_removed scene g slot d ge ma hnd hs
  generalize (disposePrevious scene d slot ge ma).1 = scene1 at hsub hf hf'
  refine ⟨?_, ?_, ?_, ?_⟩
  · rw [List.map_append, List.map_cons, List.map_nil]
    refine List.Nodup.append ((hsub.map Object3D.id).nodup hnd) (List.nodup_singleton _) ?_
    intro a ha hb'
    obtain ⟨o, ho, rfl⟩ := List.mem_map.mp ha
    have h1 := hlt o (hsub.subset ho)
    have h2 : o.id = pts.id := by simpa [Object3D.id] using hb'
    omega
  · intro o ho
    rcases List.mem_append.mp ho with h | h
    · have := hlt o (hsub.subset h)
      omega
    · rw [List.mem_singleton.mp h]
      exact Nat.lt_succ_self _
  · rw [List.filter_append, hf, List.filter_cons_of_pos hnew]
    rfl
  · intro g' hg
    have hneg : ¬ Object3D.isCloudOf g' (Object3D.points pts) = true := by
      rw [hother g' hg]; simp
    rw [List.filter_append, hf' g' hg, List.filter_cons_of_neg hneg]
    simp

theorem inv_initial : (World.initial : World α).Inv := by
  refine ⟨List.nodup_nil, ?_, ?_⟩
  · intro o ho
    exact absurd ho (List.not_mem_nil o)
  · intro g
    cases g <;> rfl

theorem inv_generateGalaxy (M : JSMath α) (maxLength : ℕ) (p : Parameters α) (draws : ℕ → α)
    (w : World α) (hv : Allocates maxLength (p.count * 3)) (hinv : w.Inv) :
    (generateGalaxy M maxLength p draws w).2.Inv ∧
      (∃ pts, (generateGalaxy M maxLength p draws w).2.cloudOf .galaxy = some pts ∧
        pts.id = w.nextId + 2) ∧
      (generateGalaxy M maxLength p draws w).2.cloudOf .starField = w.cloudOf .starField := by
  obtain ⟨-, -, -, -, ⟨pts, hid, hb, hpts, hscene⟩, hnext, hstar⟩ :=
    generateGalaxy_completes M maxLength p draws w hv
  obtain ⟨hnd, hlt, hslot⟩ := hinv
  obtain ⟨r1, r2, r3, r4⟩ := scene_replace w.scene w.nextId .galaxy w.points pts w.disposed
    w.geometry w.material hnd hlt (hslot .galaxy) (by omega) hb
  rw [← hscene] at r1 r2 r3 r4
  refine ⟨⟨r1, ?_, ?_⟩, ⟨pts, hpts, hid⟩, hstar⟩
  · intro o ho
    have := r2 o ho
    omega
  · intro g
    cases g with
    | galaxy =>
      show Slot (List.filter _ _) _ (generateGalaxy M maxLength p draws w).2.points
      rw [hpts, r3]
      exact ⟨hb, rfl⟩
    | starField =>
      show Slot (List.filter _ _) _ (generateGalaxy M maxLength p draws w).2.starFieldPoints
      rw [hstar, r4 .starField (by decide)]
      exact hslot .starField

theorem inv_generateStarField (maxLength : ℕ) (sp : StarFieldParameters α) (draws : ℕ → α)
    (w : World α) (hv : Allocates maxLength (sp.count * 3)) (hinv : w.Inv) :
    (generateStarField maxLength sp draws w).2.Inv ∧
      (∃ pts, (generateStarField maxLength sp draws w).2.cloudOf .starField = some pts ∧
        pts.id = w.nextId + 2) ∧
      (generateStarField maxLength sp draws w).2.cloudOf .galaxy = w.cloudOf .galaxy := by
  obtain ⟨-, -, -, ⟨pts, hid, hb, hpts, hscene⟩, hnext, hgal⟩ :=
    generateStarField_completes maxLength sp draws w hv
  obtain ⟨hnd, hlt, hslot⟩ := hinv
  obtain ⟨r1, r2, r3, r4⟩ := scene_replace w.scene w.nextId .starField w.starFieldPoints pts
    w.disposed w.starFieldGeometry w.starFieldMaterial hnd hlt (hslot .starField) (by omega) hb
  rw [← hscene] at r1 r2 r3 r4
  refine ⟨⟨r1, ?_, ?_⟩, ⟨pts, hpts, hid⟩, hgal⟩
  · intro o ho
    have := r2 o ho
    omega
  · intro g
    cases g with
    | galaxy =>
      show Slot (List.filter _ _) _ (generateStarField maxLength sp draws w).2.points
      rw [hgal, r4 .galaxy (by decide)]
      exact hslot .galaxy
    | starField =>
      show Slot (List.filter _ _) _ (generateStarField maxLength sp draws w).2.starFieldPoints
      rw [hpts, r3]
      exact ⟨hb, rfl⟩

theorem inv_addCamera (w : World α) (hinv : w.Inv) :
    (addCamera w).Inv ∧ ∀ g, (addCamera w).cloudOf g = w.cloudOf g := by
  obtain ⟨hnd, hlt, hslot⟩ := hinv
  refine ⟨⟨?_, ?_, ?_⟩, ?_⟩
  · show (List.map Object3D.id (w.scene ++ [Object3D.camera w.nextId])).Nodup
    rw [List.map_append, List.map_cons, List.map_nil]
    refine List.Nodup.append hnd (List.nodup_singleton _) ?_
    intro a ha hb
    obtain ⟨o, ho, rfl⟩ := List.mem_map.mp ha
    have h1 := hlt o ho
    have h2 : o.id = w.nextId := by simpa [Object3D.id] using hb
    omega
  · intro o ho
    show o.id < w.nextId + 1
    have ho' : o ∈ w.scene ++ [Object3D.camera w.nextId] := ho
    rcases List.mem_append.mp ho' with h | h
    · have := hlt o h
      omega
    · rw [List.mem_singleton.mp h]
      exact Nat.lt_succ_self _
  · intro g
    have hf : (addCamera w).clouds g = w.clouds g := by
      show List.filter _ (w.scene ++ [Object3D.camera w.nextId]) = List.filter _ w.scene
      rw [List.filter_append]
      simp [Object3D.isCloudOf]
    have hc : (addCamera w).cloudOf g = w.cloudOf g := by cases g <;> rfl
    rw [hf, hc]
    exact hslot g
  · intro g
    cases g <;> rfl

/-- A call whose allocation succeeds keeps the invariant of the scene, sets
the cloud variable of its generator to a cloud with a new identity and leaves
the other cloud variable as it is. -/
theorem inv_exec (M : JSMath α) (maxLength : ℕ) (draws : ℕ → α) (c : Call α) (w : World α)
    (hc : Allocates maxLength (c.count * 3)) (hinv : w.Inv) :
    (c.exec M maxLength draws w).Inv ∧
      (∃ pts, (c.exec M maxLength draws w).cloudOf c.generator = some pts ∧
        pts.id = w.nextId + 2) ∧
      ∀ g, g ≠ c.generator → (c.exec M maxLength draws w).cloudOf g = w.cloudOf g := by
  cases c with
  | galaxy p =>
    obtain ⟨h1, h2, h3⟩ := inv_generateGalaxy M maxLength p draws w hc hinv
    refine ⟨h1, h2, ?_⟩
    intro g hg
    cases g with
    | galaxy => exact absurd rfl hg
    | starField => exact h3
  | starField sp =>
    obtain ⟨h1, h2, h3⟩ := inv_generateStarField maxLength sp draws w hc hinv
    refine ⟨h1, h2, ?_⟩
    intro g hg
    cases g with
    | galaxy => exact h3
    | starField => exact absurd rfl hg

theorem allocates_parameters (maxLength : ℕ) (h : 300000 ≤ allocLimit maxLength) :
    Allocates maxLength ((parameters : Parameters α).count * 3) ∧
      Allocates maxLength ((starFieldParameters : StarFieldParameters α).count * 3) := by
  have e1 : (parameters : Parameters α).count = ((100000 : ℕ) : α) := by simp [parameters]
  have e2 : (starFieldParameters : StarFieldParameters α).count = ((500 : ℕ) : α) := by
    simp [starFieldParameters]
  rw [e1, e2, allocates_natCast, allocates_natCast]
  constructor <;> omega

/-- The state once the script has run, its two allocations having succeeded:
the invariant holds, the two cloud variables are set, and the clouds they hold
have identities 2 and 5. -/
theorem inv_boot (M : JSMath α) (maxLength : ℕ) (draws : ℕ → α)
    (h : 300000 ≤ allocLimit maxLength) :
    (boot M maxLength draws).Inv ∧
      (∃ pts, (boot M maxLength draws).cloudOf .galaxy = some pts ∧ pts.id = 2) ∧
      ∃ pts, (boot M maxLength draws).cloudOf .starField = some pts ∧ pts.id = 5 := by
  obtain ⟨hg, hs⟩ := allocates_parameters (α := α) maxLength h
  obtain ⟨g1, ⟨p1, g2, g3⟩, -⟩ :=
    inv_generateGalaxy M maxLength parameters draws World.initial hg inv_initial
  obtain ⟨-, -, -, -, -, gn, -⟩ :=
    generateGalaxy_completes M maxLength parameters draws World.initial hg
  obtain ⟨s1, ⟨p2, s2, s3⟩, s4⟩ := inv_generateStarField maxLength starFieldParameters draws
    (generateGalaxy M maxLength parameters draws World.initial).2 hs g1
  obtain ⟨c1, c2⟩ := inv_addCamera _ s1
  refine ⟨c1, ⟨p1, by rw [boot, c2, s4, g2], ?_⟩, ⟨p2, by rw [boot, c2, s2], ?_⟩⟩
  · rw [g3]; rfl
  · rw [s3, gn]; rfl

theorem inv_run (M : JSMath α) (maxLength : ℕ) (draws : ℕ → α) (cs : List (Call α))
    (w : World α) (hvalid : ∀ c ∈ cs, Allocates maxLength (c.count * 3)) (hinv : w.Inv)
    (hsome : ∀ g, ∃ pts, w.cloudOf g = some pts) :
    (run M maxLength draws cs w).Inv ∧
      ∀ g, ∃ pts, (run M maxLength draws cs w).cloudOf g = some pts := by
  induction cs generalizing w with
  | nil => exact ⟨hinv, hsome⟩
  | cons c cs ih =>
    obtain ⟨h1, ⟨pts, h2, -⟩, h3⟩ :=
      inv_exec M maxLength draws c w (hvalid c (List.mem_cons_self _ _)) hinv
    refine ih (c.exec M maxLength draws w)
      (fun c' hc' => hvalid c' (List.mem_cons_of_mem _ hc')) h1 ?_
    intro g
    by_cases hg : g = c.generator
    · exact ⟨pts, by rw [hg, h2]⟩
    · obtain ⟨q, hq⟩ := hsome g
      exact ⟨q, by rw [h3 g hg, hq]⟩

/-- C5 (as the script has it): once the script has run (the two initial calls,
then the camera, the engine being able to allocate the 300000 values of the
initial galaxy), after any sequence of further calls of either generator, each
with a `count` that is not negative and with `3 * count` not above the largest
length of a typed array that can be allocated, the scene holds exactly one
cloud of each generator, the one its cloud variable holds.  That cloud is the
one built by the latest call of the generator: the clouds of the two initial
calls have identities 2 and 5; a further such call sets
the variable of its generator to a cloud with a new identity, above those of
all the children the scene had, which becomes the only cloud of that generator
in the scene, and leaves the variable of the other generator as it is. -/
theorem one_cloud_per_generator (M : JSMath α) (maxLength : ℕ) (draws : ℕ → α)
    (cs : List (Call α)) (hboot : 300000 ≤ allocLimit maxLength)
    (hvalid : ∀ c ∈ cs, 0 ≤ c.count ∧ c.count * 3 ≤ (allocLimit maxLength : α)) :
    (∀ g, ∃ pts, (run M maxLength draws cs (boot M maxLength draws)).cloudOf g = some pts ∧
        (run M maxLength draws cs (boot M maxLength draws)).clouds g = [.points pts]) ∧
      ((∃ pts, (boot M maxLength draws).cloudOf .galaxy = some pts ∧ pts.id = 2) ∧
        ∃ pts, (boot M maxLength draws).cloudOf .starField = some pts ∧ pts.id = 5) ∧
      ∀ c : Call α, 0 ≤ c.count ∧ c.count * 3 ≤ (allocLimit maxLength : α) →
        (∃ pts,
          (run M maxLength draws (cs ++ [c]) (boot M maxLength draws)).cloudOf c.generator
            = some pts ∧
          (run M maxLength draws (cs ++ [c]) (boot M maxLength draws)).clouds c.generator
            = [.points pts] ∧
          pts.id = (run M maxLength draws cs (boot M maxLength draws)).nextId + 2 ∧
          ∀ o ∈ (run M maxLength draws cs (boot M maxLength draws)).scene, o.id < pts.id) ∧
        ∀ g, g ≠ c.generator →
          (run M maxLength draws (cs ++ [c]) (boot M maxLength draws)).cloudOf g =
            (run M maxLength draws cs (boot M maxLength draws)).cloudOf g := by
  obtain ⟨hb, hb1, hb2⟩ := inv_boot M maxLength draws hboot
  have hbs : ∀ g, ∃ pts, (boot M maxLength draws).cloudOf g = some pts := by
    intro g
    cases g with
    | galaxy => exact ⟨_, hb1.choose_spec.1⟩
    | starField => exact ⟨_, hb2.choose_spec.1⟩
  obtain ⟨hinv, hsome⟩ := inv_run M maxLength draws cs (boot M maxLength draws)
    (fun c hc => allocates_of_nonneg maxLength _ (hvalid c hc).1 (hvalid c hc).2) hb hbs
  have hone : ∀ (w : World α), w.Inv → ∀ g pts, w.cloudOf g = some pts →
      w.clouds g = [.points pts] := by
    intro w hw g pts hp
    have hs := hw.2.2 g
    rw [hp] at hs
    exact hs.2
  refine ⟨?_, ⟨hb1, hb2⟩, ?_⟩
  · intro g
    obtain ⟨pts, hp⟩ := hsome g
    exact ⟨pts, hp, hone _ hinv g pts hp⟩
  · intro c hc
    have hrun : run M maxLength draws (cs ++ [c]) (boot M maxLength draws) =
        c.exec M maxLength draws (run M maxLength draws cs (boot M maxLength draws)) := by
      simp [run, List.foldl_append]
    obtain ⟨h1, ⟨pts, h2, h3⟩, h4⟩ :=
      inv_exec M maxLength draws c _ (allocates_of_nonneg maxLength _ hc.1 hc.2) hinv
    rw [hrun]
    refine ⟨⟨pts, h2, hone _ h1 _ pts h2, h3, ?_⟩, h4⟩
    intro o ho
    have := hinv.2.1 o ho
    omega

/-- Witness of `one_cloud_per_generator`: on an engine that allocates every
length `ToIndex` accepts, after the script has run, the galaxy is regenerated
with the parameters of the scenario and the star field with its initial
parameters. -/
theorem one_cloud_per_generator_witness :
    300000 ≤ allocLimit toIndexMax ∧
      (∀ c ∈ [Call.galaxy (scenario : Parameters ℝ), Call.starField starFieldParameters],
        0 ≤ c.count ∧ c.count * 3 ≤ (allocLimit toIndexMax : ℝ)) ∧
      ∀ g, ∃ pts,
        (run JSMath.real toIndexMax (fun _ => 0)
          [Call.galaxy (scenario : Parameters ℝ), Call.starField starFieldParameters]
          (boot JSMath.real toIndexMax (fun _ => 0))).cloudOf g = some pts ∧
        (run JSMath.real toIndexMax (fun _ => 0)
          [Call.galaxy (scenario : Parameters ℝ), Call.starField starFieldParameters]
          (boot JSMath.real toIndexMax (fun _ => 0))).clouds g = [.points pts] :=
  have hboot : 300000 ≤ allocLimit toIndexMax := by rw [allocLimit_toIndexMax]; norm_num
  have hvalid : ∀ c ∈ [Call.galaxy (scenario : Parameters ℝ),
      Call.starField starFieldParameters],
      0 ≤ c.count ∧ c.count * 3 ≤ (allocLimit toIndexMax : ℝ) := by
    intro c hc
    simp only [List.mem_cons, List.mem_singleton, List.not_mem_nil, or_false] at hc
    rcases hc with h | h <;> subst h <;>
      norm_num [Call.count, scenario, starFieldParameters, allocLimit_toIndexMax]
  ⟨hboot, hvalid,
    (one_cloud_per_generator JSMath.real toIndexMax (fun _ => 0) _ hboot hvalid).1⟩

/-- C5 as first stated fails when a further call has `count = -1`: on an engine
that allocates every length `ToIndex` accepts, once the script has run, the
call of `generateGalaxy` with `count = -1` removes the galaxy cloud from the
scene and then throws a `RangeError`, so the scene is left with no galaxy
cloud. -/
theorem negative_count_leaves_no_galaxy_cloud :
    (generateGalaxy JSMath.real toIndexMax { (parameters : Parameters ℝ) with count := -1 }
        (fun _ => 0) (boot JSMath.real toIndexMax (fun _ => 0))).1 = .error .rangeError ∧
      (run JSMath.real toIndexMax (fun _ => 0)
        [Call.galaxy { (parameters : Parameters ℝ) with count := -1 }]
        (boot JSMath.real toIndexMax (fun _ => 0))).clouds .galaxy = [] := by
  have hboot : 300000 ≤ allocLimit toIndexMax := by rw [allocLimit_toIndexMax]; norm_num
  obtain ⟨hinv, -, -⟩ := inv_boot JSMath.real toIndexMax (fun _ => (0 : ℝ)) hboot
  have hna : ¬ Allocates toIndexMax
      (({ (parameters : Parameters ℝ) with count := -1 }).count * 3) :=
    not_allocates_of_le _ _ (by norm_num)
  obtain ⟨h1, -, -, h4⟩ := generateGalaxy_throws JSMath.real toIndexMax
    { (parameters : Parameters ℝ) with count := -1 } (fun _ => 0)
    (boot JSMath.real toIndexMax (fun _ => 0)) hna
  refine ⟨h1, ?_⟩
  show List.filter _ (generateGalaxy JSMath.real toIndexMax
    { (parameters : Parameters ℝ) with count := -1 } (fun _ => 0)
    (boot JSMath.real toIndexMax (fun _ => 0))).2.scene = []
  rw [h4]
  exact (scene_removed _ .galaxy _ _ _ _ hinv.1 (hinv.2.2 .galaxy)).2.1

end Properties

end Galaxy
